import Mathlib

/-! Evacuation handlers (`handlers/evacuation_handler.go`)

A shallow embedding of the five evacuation handlers.  Each handler is a
function from the inbound request and the world it runs in (the store
behind the controller, the exit channel) to the state at function exit:
the response struct, the new world, and the chronological trace of the
effects the handler performed (log lines, the parse, field writes on the
response, controller calls, the response write, the escalation call).

Go's `defer` is modelled explicitly: deferred calls are collected in
registration order and run last-registered-first against the state the
body left behind.
-/

namespace models

/-- Modelled from the spec: the error classes of `models.Error`, whose
declaration is outside this file.  Section 7 of the spec lists the
taxonomy. -/
inductive ErrorType where
  | ValidationError
  | NotFoundError
  | ConflictError
  | UnrecoverableError
  | UnknownError
  deriving DecidableEq, Repr

/-- Modelled from the spec: `models.Error`, the classified error carried by
a response (its declaration is outside this file): an error class and a
human-readable message. -/
structure Error where
  Class : ErrorType
  Message : String
  deriving DecidableEq, Repr

/-- Modelled from the spec: `models.RemoveEvacuatingActualLRPResponse`,
declared outside this file.  The handler only ever touches `Error`; the
kind has no retention concept. -/
structure RemoveEvacuatingActualLRPResponse where
  Error : Option Error := none
  deriving DecidableEq, Repr

/-- Modelled from the spec: `models.EvacuationResponse`, declared outside
this file: an optional classified error and the KeepContainer flag, both
zero-valued in a fresh struct. -/
structure EvacuationResponse where
  Error : Option Error := none
  KeepContainer : Bool := false
  deriving DecidableEq, Repr

/-- The fields of `models.RemoveEvacuatingActualLRPRequest` the handler
reads.  `K` and `I` stand for `*models.ActualLRPKey` and
`*models.ActualLRPInstanceKey`, which the handler passes on untouched. -/
structure RemoveEvacuatingActualLRPRequest (K I : Type) where
  ActualLrpKey : K
  ActualLrpInstanceKey : I

/-- The fields of `models.EvacuateClaimedActualLRPRequest` the handler reads. -/
structure EvacuateClaimedActualLRPRequest (K I : Type) where
  ActualLrpKey : K
  ActualLrpInstanceKey : I

/-- The fields of `models.EvacuateCrashedActualLRPRequest` the handler reads. -/
structure EvacuateCrashedActualLRPRequest (K I : Type) where
  ActualLrpKey : K
  ActualLrpInstanceKey : I
  ErrorMessage : String

/-- The fields of `models.EvacuateRunningActualLRPRequest` the handler reads.
`N` stands for `*models.ActualLRPNetInfo`. -/
structure EvacuateRunningActualLRPRequest (K I N : Type) where
  ActualLrpKey : K
  ActualLrpInstanceKey : I
  ActualLrpNetInfo : N

/-- The fields of `models.EvacuateStoppedActualLRPRequest` the handler reads. -/
structure EvacuateStoppedActualLRPRequest (K I : Type) where
  ActualLrpKey : K
  ActualLrpInstanceKey : I

/-- Modelled from the spec: a Go `error` value as the validator or the
controller returns it (the concrete error types are outside this file).
It is either a failure that already carries a class of the taxonomy, or an
unclassified failure known only by its text. -/
inductive RawError where
  | classified (e : Error)
  | unclassified (text : String)
  deriving DecidableEq, Repr

/-- Modelled from the spec: `models.ConvertError`, whose code is outside this
file.  Sections 3 and 7: no failure gives no error; a failure is converted
into the taxonomy, UnknownError being the fallback for unclassified
failures. -/
def ConvertError : Option RawError → Option Error
  | none => none
  | some (RawError.classified e) => some e
  | some (RawError.unclassified text) => some { Class := ErrorType.UnknownError, Message := text }

end models

namespace controllers

/-- The five methods of `*controllers.EvacuationController` as the handlers
call them (the type itself is declared outside this file, so its behaviour
is a parameter).  `S` is the state of the store behind the controller; a
method reads it and returns the Go results together with the new store.
`R` is the type of non-nil Go `error` values, so `Option R` is `error`. -/
structure EvacuationController (S K I N R : Type) where
  RemoveEvacuatingActualLRP : S → K → I → Option R × S
  EvacuateClaimedActualLRP : S → K → I → (Option R × Bool) × S
  EvacuateCrashedActualLRP : S → K → I → String → Option R × S
  EvacuateRunningActualLRP : S → K → I → N → (Option R × Bool) × S
  EvacuateStoppedActualLRP : S → K → I → Option R × S

end controllers

namespace handlers

/-- A call on the controller, with the arguments it was given. -/
inductive ControllerCall (K I N : Type) where
  | RemoveEvacuatingActualLRP (key : K) (instanceKey : I)
  | EvacuateClaimedActualLRP (key : K) (instanceKey : I)
  | EvacuateCrashedActualLRP (key : K) (instanceKey : I) (errorMessage : String)
  | EvacuateRunningActualLRP (key : K) (instanceKey : I) (netInfo : N)
  | EvacuateStoppedActualLRP (key : K) (instanceKey : I)
  deriving DecidableEq, Repr

/-- The `proto.Message` values handed to `writeResponse`. -/
inductive Message where
  | RemoveEvacuatingActualLRPResponse (r : models.RemoveEvacuatingActualLRPResponse)
  | EvacuationResponse (r : models.EvacuationResponse)
  deriving DecidableEq, Repr

/-- The Error field of a transmitted message. -/
def Message.Error : Message → Option models.Error
  | Message.RemoveEvacuatingActualLRPResponse r => r.Error
  | Message.EvacuationResponse r => r.Error

/-- The KeepContainer field of a transmitted message, when its type has one. -/
def Message.KeepContainer : Message → Option Bool
  | Message.RemoveEvacuatingActualLRPResponse _ => none
  | Message.EvacuationResponse r => some r.KeepContainer

/-- One observable step of a handler. -/
inductive Event (K I N R : Type) where
  | logInfo (session : String) (msg : String)
  | logError (session : String) (msg : String) (err : R)
  | parseRequest (err : Option R)
  | setError (e : Option models.Error)
  | setKeepContainer (b : Bool)
  | controller (c : ControllerCall K I N)
  | writeResponse (m : Message)
  | exitIfUnrecoverable (e : Option models.Error)
  deriving DecidableEq, Repr

/-- What a handler runs in and leaves behind, apart from its response: the
store behind `h.controller` and the number of signals sent so far on
`h.exitChan`. -/
structure World (S : Type) where
  store : S
  exitChan : Nat

/-- The state of one handler invocation.  `response` is the struct the local
pointer `response` points to. -/
structure State (P S K I N R : Type) where
  response : P
  store : S
  exitChan : Nat
  trace : List (Event K I N R)

/-- The world a finished invocation leaves to the next one. -/
def State.world {P S K I N R : Type} (s : State P S K I N R) : World S :=
  { store := s.store, exitChan := s.exitChan }

/-- The functions of package `handlers` and `models` that the handlers call
and whose code is outside this file.  `parseRequest` is one Go function
taking any `MessageValidator`; it appears here once per request type it is
used at.  `Q` is the inbound `*http.Request`; a parse either fails with a
non-nil error or yields the populated request.  `exitIfUnrecoverable` maps
the signals already on the exit channel and the error it is given to the
signals on the channel afterwards. -/
structure Package (Q K I N R : Type) where
  parseRemoveEvacuatingActualLRPRequest : Q → Except R (models.RemoveEvacuatingActualLRPRequest K I)
  parseEvacuateClaimedActualLRPRequest : Q → Except R (models.EvacuateClaimedActualLRPRequest K I)
  parseEvacuateCrashedActualLRPRequest : Q → Except R (models.EvacuateCrashedActualLRPRequest K I)
  parseEvacuateRunningActualLRPRequest : Q → Except R (models.EvacuateRunningActualLRPRequest K I N)
  parseEvacuateStoppedActualLRPRequest : Q → Except R (models.EvacuateStoppedActualLRPRequest K I)
  ConvertError : Option R → Option models.Error
  exitIfUnrecoverable : Nat → Option models.Error → Nat

/-- The handler struct.  The `exitChan` field is a reference to the process-wide
channel; its content is `World.exitChan`. -/
structure EvacuationHandler (S K I N R : Type) where
  controller : controllers.EvacuationController S K I N R

section steps

variable {P S Q K I N R M : Type}

/-- The Go `error` a parse returned: nil on success. -/
def errorOf : Except R M → Option R
  | Except.error err => some err
  | Except.ok _ => none

/-- Appends one step to the trace. -/
def State.emit (ev : Event K I N R) (s : State P S K I N R) : State P S K I N R :=
  { s with trace := s.trace ++ [ev] }

/-- The state at function entry with a freshly allocated response. -/
def State.enter (response : P) (w : World S) : State P S K I N R :=
  { response := response, store := w.store, exitChan := w.exitChan, trace := [] }

/-- Runs the deferred calls, given in registration order, last registered
first, each against the state its predecessor left. -/
def runDeferred (deferred : List (State P S K I N R → State P S K I N R))
    (s : State P S K I N R) : State P S K I N R :=
  deferred.reverse.foldl (fun acc d => d acc) s

/-- The deferred `logger.Info(msg)`. -/
def deferLogInfo (logger msg : String) (s : State P S K I N R) : State P S K I N R :=
  s.emit (Event.logInfo logger msg)

/-- The deferred `writeResponse(w, response)`: the argument is the pointer, so
the struct is read when the call runs. -/
def deferWriteResponse (toMessage : P → Message) (s : State P S K I N R) : State P S K I N R :=
  s.emit (Event.writeResponse (toMessage s.response))

/-- The deferred closure `func() { exitIfUnrecoverable(logger, h.exitChan, response.Error) }`:
`response.Error` is read when the closure runs. -/
def deferExitIfUnrecoverable (pkg : Package Q K I N R) (getError : P → Option models.Error)
    (s : State P S K I N R) : State P S K I N R :=
  let err := getError s.response
  { s.emit (Event.exitIfUnrecoverable err) with exitChan := pkg.exitIfUnrecoverable s.exitChan err }

/-- The assignment `response.Error = e` on a RemoveEvacuatingActualLRPResponse. -/
def setRemoveError (e : Option models.Error)
    (s : State models.RemoveEvacuatingActualLRPResponse S K I N R) :
    State models.RemoveEvacuatingActualLRPResponse S K I N R :=
  { s.emit (Event.setError e) with response := { s.response with Error := e } }

/-- The assignment `response.Error = e` on an EvacuationResponse. -/
def setError (e : Option models.Error) (s : State models.EvacuationResponse S K I N R) :
    State models.EvacuationResponse S K I N R :=
  { s.emit (Event.setError e) with response := { s.response with Error := e } }

/-- The assignment `response.KeepContainer = b`. -/
def setKeepContainer (b : Bool) (s : State models.EvacuationResponse S K I N R) :
    State models.EvacuationResponse S K I N R :=
  { s.emit (Event.setKeepContainer b) with response := { s.response with KeepContainer := b } }

/-- Records a controller call and installs the store it left. -/
def called (c : ControllerCall K I N) (store : S) (s : State P S K I N R) : State P S K I N R :=
  { s.emit (Event.controller c) with store := store }

end steps

section handlers

variable {S Q K I N R : Type}

/-- The handler `(*EvacuationHandler).RemoveEvacuatingActualLRP` (lines 42-62).
Deferred, in registration order: the "completed" log line, the escalation
closure, the response write.  A failed parse assigns the converted error and
returns; otherwise the controller is called and its error is converted and
assigned. -/
def RemoveEvacuatingActualLRP (h : EvacuationHandler S K I N R) (pkg : Package Q K I N R)
    (req : Q) (w : World S) : State models.RemoveEvacuatingActualLRPResponse S K I N R :=
  let logger := "remove-evacuating-actual-lrp"
  let s : State models.RemoveEvacuatingActualLRPResponse S K I N R := State.enter {} w
  let s := s.emit (Event.logInfo logger "started")
  let deferred := [
    deferLogInfo logger "completed",
    deferExitIfUnrecoverable pkg (fun r => r.Error),
    deferWriteResponse Message.RemoveEvacuatingActualLRPResponse]
  let parsed := pkg.parseRemoveEvacuatingActualLRPRequest req
  let s := s.emit (Event.parseRequest (errorOf parsed))
  match parsed with
  | Except.error err =>
    let s := setRemoveError (pkg.ConvertError (some err)) s
    runDeferred deferred s
  | Except.ok request =>
    let out := h.controller.RemoveEvacuatingActualLRP s.store
      request.ActualLrpKey request.ActualLrpInstanceKey
    let s := called (ControllerCall.RemoveEvacuatingActualLRP
      request.ActualLrpKey request.ActualLrpInstanceKey) out.2 s
    let s := setRemoveError (pkg.ConvertError out.1) s
    runDeferred deferred s

/-- The handler `(*EvacuationHandler).EvacuateClaimedActualLRP` (lines 64-85).
A failed parse is logged, assigns the converted error and `KeepContainer = true`
and returns; otherwise the controller is called and both its results are
assigned. -/
def EvacuateClaimedActualLRP (h : EvacuationHandler S K I N R) (pkg : Package Q K I N R)
    (req : Q) (w : World S) : State models.EvacuationResponse S K I N R :=
  let logger := "evacuate-claimed-actual-lrp"
  let s : State models.EvacuationResponse S K I N R := State.enter {} w
  let s := s.emit (Event.logInfo logger "started")
  let deferred := [
    deferLogInfo logger "completed",
    deferExitIfUnrecoverable pkg (fun r => r.Error),
    deferWriteResponse Message.EvacuationResponse]
  let parsed := pkg.parseEvacuateClaimedActualLRPRequest req
  let s := s.emit (Event.parseRequest (errorOf parsed))
  match parsed with
  | Except.error err =>
    let s := s.emit (Event.logError logger "failed-parsing-request" err)
    let s := setError (pkg.ConvertError (some err)) s
    let s := setKeepContainer true s
    runDeferred deferred s
  | Except.ok request =>
    let out := h.controller.EvacuateClaimedActualLRP s.store
      request.ActualLrpKey request.ActualLrpInstanceKey
    let s := called (ControllerCall.EvacuateClaimedActualLRP
      request.ActualLrpKey request.ActualLrpInstanceKey) out.2 s
    let s := setError (pkg.ConvertError out.1.1) s
    let s := setKeepContainer out.1.2 s
    runDeferred deferred s

/-- The handler `(*EvacuationHandler).EvacuateCrashedActualLRP` (lines 87-106).
The controller method returns an error only; KeepContainer is not assigned on
either path. -/
def EvacuateCrashedActualLRP (h : EvacuationHandler S K I N R) (pkg : Package Q K I N R)
    (req : Q) (w : World S) : State models.EvacuationResponse S K I N R :=
  let logger := "evacuate-crashed-actual-lrp"
  let s : State models.EvacuationResponse S K I N R := State.enter {} w
  let s := s.emit (Event.logInfo logger "started")
  let deferred := [
    deferLogInfo logger "completed",
    deferExitIfUnrecoverable pkg (fun r => r.Error),
    deferWriteResponse Message.EvacuationResponse]
  let parsed := pkg.parseEvacuateCrashedActualLRPRequest req
  let s := s.emit (Event.parseRequest (errorOf parsed))
  match parsed with
  | Except.error err =>
    let s := s.emit (Event.logError logger "failed-parsing-request" err)
    let s := setError (pkg.ConvertError (some err)) s
    runDeferred deferred s
  | Except.ok request =>
    let out := h.controller.EvacuateCrashedActualLRP s.store
      request.ActualLrpKey request.ActualLrpInstanceKey request.ErrorMessage
    let s := called (ControllerCall.EvacuateCrashedActualLRP
      request.ActualLrpKey request.ActualLrpInstanceKey request.ErrorMessage) out.2 s
    let s := setError (pkg.ConvertError out.1) s
    runDeferred deferred s

/-- The handler `(*EvacuationHandler).EvacuateRunningActualLRP` (lines 108-128).
`response.KeepContainer = true` is assigned before the deferred calls are
registered and before the parse; after a successful parse both results of the
controller are assigned, whatever they are. -/
def EvacuateRunningActualLRP (h : EvacuationHandler S K I N R) (pkg : Package Q K I N R)
    (req : Q) (w : World S) : State models.EvacuationResponse S K I N R :=
  let logger := "evacuate-running-actual-lrp"
  let s : State models.EvacuationResponse S K I N R := State.enter {} w
  let s := s.emit (Event.logInfo logger "starting")
  let s := setKeepContainer true s
  let deferred := [
    deferLogInfo logger "completed",
    deferExitIfUnrecoverable pkg (fun r => r.Error),
    deferWriteResponse Message.EvacuationResponse]
  let parsed := pkg.parseEvacuateRunningActualLRPRequest req
  let s := s.emit (Event.parseRequest (errorOf parsed))
  match parsed with
  | Except.error err =>
    let s := setError (pkg.ConvertError (some err)) s
    runDeferred deferred s
  | Except.ok request =>
    let out := h.controller.EvacuateRunningActualLRP s.store
      request.ActualLrpKey request.ActualLrpInstanceKey request.ActualLrpNetInfo
    let s := called (ControllerCall.EvacuateRunningActualLRP
      request.ActualLrpKey request.ActualLrpInstanceKey request.ActualLrpNetInfo) out.2 s
    let s := setError (pkg.ConvertError out.1.1) s
    let s := setKeepContainer out.1.2 s
    runDeferred deferred s

/-- The handler `(*EvacuationHandler).EvacuateStoppedActualLRP` (lines 130-148).
It writes no "started" or "completed" log line, so only two calls are
deferred. -/
def EvacuateStoppedActualLRP (h : EvacuationHandler S K I N R) (pkg : Package Q K I N R)
    (req : Q) (w : World S) : State models.EvacuationResponse S K I N R :=
  let logger := "evacuate-stopped-actual-lrp"
  let s : State models.EvacuationResponse S K I N R := State.enter {} w
  let deferred := [
    deferExitIfUnrecoverable pkg (fun r => r.Error),
    deferWriteResponse Message.EvacuationResponse]
  let parsed := pkg.parseEvacuateStoppedActualLRPRequest req
  let s := s.emit (Event.parseRequest (errorOf parsed))
  match parsed with
  | Except.error err =>
    let s := s.emit (Event.logError logger "failed-to-parse-request" err)
    let s := setError (pkg.ConvertError (some err)) s
    runDeferred deferred s
  | Except.ok request =>
    let out := h.controller.EvacuateStoppedActualLRP s.store
      request.ActualLrpKey request.ActualLrpInstanceKey
    let s := called (ControllerCall.EvacuateStoppedActualLRP
      request.ActualLrpKey request.ActualLrpInstanceKey) out.2 s
    let s := setError (pkg.ConvertError out.1) s
    runDeferred deferred s

end handlers

section observations

variable {K I N R : Type}

/-- The controller calls of a trace, in order. -/
def controllerCalls : List (Event K I N R) → List (ControllerCall K I N)
  | [] => []
  | Event.controller c :: rest => c :: controllerCalls rest
  | _ :: rest => controllerCalls rest

/-- The messages handed to `writeResponse` in a trace, in order. -/
def written : List (Event K I N R) → List Message
  | [] => []
  | Event.writeResponse m :: rest => m :: written rest
  | _ :: rest => written rest

/-- The errors handed to `exitIfUnrecoverable` in a trace, in order. -/
def escalations : List (Event K I N R) → List (Option models.Error)
  | [] => []
  | Event.exitIfUnrecoverable e :: rest => e :: escalations rest
  | _ :: rest => escalations rest

/-- The values assigned to `response.KeepContainer` in a trace, in order. -/
def keepAssignments : List (Event K I N R) → List Bool
  | [] => []
  | Event.setKeepContainer b :: rest => b :: keepAssignments rest
  | _ :: rest => keepAssignments rest

/-- The values assigned to `response.Error` in a trace, in order. -/
def errorAssignments : List (Event K I N R) → List (Option models.Error)
  | [] => []
  | Event.setError e :: rest => e :: errorAssignments rest
  | _ :: rest => errorAssignments rest

/-- The part of a trace that follows the return of `parseRequest`. -/
def afterParse : List (Event K I N R) → List (Event K I N R)
  | [] => []
  | Event.parseRequest _ :: rest => rest
  | _ :: rest => afterParse rest

/-- The part of a trace up to and including the return of `parseRequest`. -/
def uptoParse : List (Event K I N R) → List (Event K I N R)
  | [] => []
  | Event.parseRequest err :: _ => [Event.parseRequest err]
  | ev :: rest => ev :: uptoParse rest

end observations

/-- Whether a classified error denotes the unrecoverable class. -/
def isUnrecoverable : Option models.Error → Bool
  | some e => decide (e.Class = models.ErrorType.UnrecoverableError)
  | none => false

/-- Modelled from the spec: `exitIfUnrecoverable`, whose code is outside this
file.  Section 4.4: one signal on the exit channel when the error denotes an
unrecoverable condition, none when the error is absent or recoverable. -/
def exitIfUnrecoverable (exitChan : Nat) (err : Option models.Error) : Nat :=
  if isUnrecoverable err then exitChan + 1 else exitChan

/-! ## Stubs

Deterministic stand-ins for the collaborators, used to run the handlers on
concrete requests.  Requests are numbered; request `0` is structurally
invalid, every other request `n` decodes to key `n` and instance key `n + 1`. -/

/-- The error the stub validator returns for request `0`. -/
def stubInvalid : models.RawError :=
  models.RawError.classified { Class := models.ErrorType.ValidationError, Message := "invalid request" }

/-- A not-found failure as a controller returns it. -/
def stubNotFound : models.RawError :=
  models.RawError.classified { Class := models.ErrorType.NotFoundError, Message := "not found" }

/-- A storage failure of the unrecoverable class as a controller returns it. -/
def stubUnrecoverable : models.RawError :=
  models.RawError.classified { Class := models.ErrorType.UnrecoverableError, Message := "store lost" }

/-- The stub package: the validator described above, the modelled
`ConvertError` and the modelled `exitIfUnrecoverable`. -/
def stubPackage : Package Nat Nat Nat Nat models.RawError where
  parseRemoveEvacuatingActualLRPRequest := fun q =>
    if q = 0 then Except.error stubInvalid
    else Except.ok { ActualLrpKey := q, ActualLrpInstanceKey := q + 1 }
  parseEvacuateClaimedActualLRPRequest := fun q =>
    if q = 0 then Except.error stubInvalid
    else Except.ok { ActualLrpKey := q, ActualLrpInstanceKey := q + 1 }
  parseEvacuateCrashedActualLRPRequest := fun q =>
    if q = 0 then Except.error stubInvalid
    else Except.ok { ActualLrpKey := q, ActualLrpInstanceKey := q + 1, ErrorMessage := "crashed" }
  parseEvacuateRunningActualLRPRequest := fun q =>
    if q = 0 then Except.error stubInvalid
    else Except.ok { ActualLrpKey := q, ActualLrpInstanceKey := q + 1, ActualLrpNetInfo := q + 2 }
  parseEvacuateStoppedActualLRPRequest := fun q =>
    if q = 0 then Except.error stubInvalid
    else Except.ok { ActualLrpKey := q, ActualLrpInstanceKey := q + 1 }
  ConvertError := models.ConvertError
  exitIfUnrecoverable := exitIfUnrecoverable

/-- A stub controller that answers every call with the same error and the same
retention decision, and counts its calls in the store. -/
def stubController (err : Option models.RawError) (keepContainer : Bool) :
    controllers.EvacuationController Nat Nat Nat Nat models.RawError where
  RemoveEvacuatingActualLRP := fun calls _ _ => (err, calls + 1)
  EvacuateClaimedActualLRP := fun calls _ _ => ((err, keepContainer), calls + 1)
  EvacuateCrashedActualLRP := fun calls _ _ _ => (err, calls + 1)
  EvacuateRunningActualLRP := fun calls _ _ _ => ((err, keepContainer), calls + 1)
  EvacuateStoppedActualLRP := fun calls _ _ => (err, calls + 1)

/-- The error of the stub below, given the number of calls already made. -/
def stubSecondCallError (calls : Nat) : Option models.RawError :=
  if calls = 0 then none else some stubNotFound

/-- A stub controller that succeeds on its first call and reports not-found on
every later one; the store counts the calls made so far. -/
def stubSecondCallNotFound : controllers.EvacuationController Nat Nat Nat Nat models.RawError where
  RemoveEvacuatingActualLRP := fun calls _ _ => (stubSecondCallError calls, calls + 1)
  EvacuateClaimedActualLRP := fun calls _ _ => ((stubSecondCallError calls, false), calls + 1)
  EvacuateCrashedActualLRP := fun calls _ _ _ => (stubSecondCallError calls, calls + 1)
  EvacuateRunningActualLRP := fun calls _ _ _ => ((stubSecondCallError calls, false), calls + 1)
  EvacuateStoppedActualLRP := fun calls _ _ => (stubSecondCallError calls, calls + 1)

/-- The handler wired to the constant stub controller. -/
def stubHandler (err : Option models.RawError) (keepContainer : Bool) :
    EvacuationHandler Nat Nat Nat Nat models.RawError :=
  { controller := stubController err keepContainer }

/-- The handler wired to the stub controller whose second call reports not-found. -/
def stubSecondCallHandler : EvacuationHandler Nat Nat Nat Nat models.RawError :=
  { controller := stubSecondCallNotFound }

/-- The world before any request: no controller call made, no signal sent. -/
def stubWorld : World Nat := { store := 0, exitChan := 0 }

/-! ## The final state of each handler on each path -/

section paths

variable {S Q K I N R : Type}

theorem RemoveEvacuatingActualLRP_invalid (h : EvacuationHandler S K I N R)
    (pkg : Package Q K I N R) (req : Q) (w : World S) (e : R)
    (hp : pkg.parseRemoveEvacuatingActualLRPRequest req = Except.error e) :
    RemoveEvacuatingActualLRP h pkg req w =
      { response := { Error := pkg.ConvertError (some e) }
        store := w.store
        exitChan := pkg.exitIfUnrecoverable w.exitChan (pkg.ConvertError (some e))
        trace := [
          Event.logInfo "remove-evacuating-actual-lrp" "started",
          Event.parseRequest (some e),
          Event.setError (pkg.ConvertError (some e)),
          Event.writeResponse (Message.RemoveEvacuatingActualLRPResponse
            { Error := pkg.ConvertError (some e) }),
          Event.exitIfUnrecoverable (pkg.ConvertError (some e)),
          Event.logInfo "remove-evacuating-actual-lrp" "completed"] } := by
  unfold RemoveEvacuatingActualLRP
  simp only [hp]
  rfl

theorem RemoveEvacuatingActualLRP_valid (h : EvacuationHandler S K I N R)
    (pkg : Package Q K I N R) (req : Q) (w : World S)
    (request : models.RemoveEvacuatingActualLRPRequest K I)
    (err : Option R) (store : S)
    (hp : pkg.parseRemoveEvacuatingActualLRPRequest req = Except.ok request)
    (hc : h.controller.RemoveEvacuatingActualLRP w.store
      request.ActualLrpKey request.ActualLrpInstanceKey = (err, store)) :
    RemoveEvacuatingActualLRP h pkg req w =
      { response := { Error := pkg.ConvertError err }
        store := store
        exitChan := pkg.exitIfUnrecoverable w.exitChan (pkg.ConvertError err)
        trace := [
          Event.logInfo "remove-evacuating-actual-lrp" "started",
          Event.parseRequest none,
          Event.controller (ControllerCall.RemoveEvacuatingActualLRP
            request.ActualLrpKey request.ActualLrpInstanceKey),
          Event.setError (pkg.ConvertError err),
          Event.writeResponse (Message.RemoveEvacuatingActualLRPResponse
            { Error := pkg.ConvertError err }),
          Event.exitIfUnrecoverable (pkg.ConvertError err),
          Event.logInfo "remove-evacuating-actual-lrp" "completed"] } := by
  unfold RemoveEvacuatingActualLRP
  simp only [hp]
  simp only [State.enter, State.emit, setKeepContainer, setError, setRemoveError, called, hc]
  rfl

theorem EvacuateClaimedActualLRP_invalid (h : EvacuationHandler S K I N R)
    (pkg : Package Q K I N R) (req : Q) (w : World S) (e : R)
    (hp : pkg.parseEvacuateClaimedActualLRPRequest req = Except.error e) :
    EvacuateClaimedActualLRP h pkg req w =
      { response := { Error := pkg.ConvertError (some e), KeepContainer := true }
        store := w.store
        exitChan := pkg.exitIfUnrecoverable w.exitChan (pkg.ConvertError (some e))
        trace := [
          Event.logInfo "evacuate-claimed-actual-lrp" "started",
          Event.parseRequest (some e),
          Event.logError "evacuate-claimed-actual-lrp" "failed-parsing-request" e,
          Event.setError (pkg.ConvertError (some e)),
          Event.setKeepContainer true,
          Event.writeResponse (Message.EvacuationResponse
            { Error := pkg.ConvertError (some e), KeepContainer := true }),
          Event.exitIfUnrecoverable (pkg.ConvertError (some e)),
          Event.logInfo "evacuate-claimed-actual-lrp" "completed"] } := by
  unfold EvacuateClaimedActualLRP
  simp only [hp]
  rfl

theorem EvacuateClaimedActualLRP_valid (h : EvacuationHandler S K I N R)
    (pkg : Package Q K I N R) (req : Q) (w : World S)
    (request : models.EvacuateClaimedActualLRPRequest K I)
    (err : Option R) (keepContainer : Bool) (store : S)
    (hp : pkg.parseEvacuateClaimedActualLRPRequest req = Except.ok request)
    (hc : h.controller.EvacuateClaimedActualLRP w.store
      request.ActualLrpKey request.ActualLrpInstanceKey = ((err, keepContainer), store)) :
    EvacuateClaimedActualLRP h pkg req w =
      { response := { Error := pkg.ConvertError err, KeepContainer := keepContainer }
        store := store
        exitChan := pkg.exitIfUnrecoverable w.exitChan (pkg.ConvertError err)
        trace := [
          Event.logInfo "evacuate-claimed-actual-lrp" "started",
          Event.parseRequest none,
          Event.controller (ControllerCall.EvacuateClaimedActualLRP
            request.ActualLrpKey request.ActualLrpInstanceKey),
          Event.setError (pkg.ConvertError err),
          Event.setKeepContainer keepContainer,
          Event.writeResponse (Message.EvacuationResponse
            { Error := pkg.ConvertError err, KeepContainer := keepContainer }),
          Event.exitIfUnrecoverable (pkg.ConvertError err),
          Event.logInfo "evacuate-claimed-actual-lrp" "completed"] } := by
  unfold EvacuateClaimedActualLRP
  simp only [hp]
  simp only [State.enter, State.emit, setKeepContainer, setError, setRemoveError, called, hc]
  rfl

theorem EvacuateCrashedActualLRP_invalid (h : EvacuationHandler S K I N R)
    (pkg : Package Q K I N R) (req : Q) (w : World S) (e : R)
    (hp : pkg.parseEvacuateCrashedActualLRPRequest req = Except.error e) :
    EvacuateCrashedActualLRP h pkg req w =
      { response := { Error := pkg.ConvertError (some e), KeepContainer := false }
        store := w.store
        exitChan := pkg.exitIfUnrecoverable w.exitChan (pkg.ConvertError (some e))
        trace := [
          Event.logInfo "evacuate-crashed-actual-lrp" "started",
          Event.parseRequest (some e),
          Event.logError "evacuate-crashed-actual-lrp" "failed-parsing-request" e,
          Event.setError (pkg.ConvertError (some e)),
          Event.writeResponse (Message.EvacuationResponse
            { Error := pkg.ConvertError (some e), KeepContainer := false }),
          Event.exitIfUnrecoverable (pkg.ConvertError (some e)),
          Event.logInfo "evacuate-crashed-actual-lrp" "completed"] } := by
  unfold EvacuateCrashedActualLRP
  simp only [hp]
  rfl

theorem EvacuateCrashedActualLRP_valid (h : EvacuationHandler S K I N R)
    (pkg : Package Q K I N R) (req : Q) (w : World S)
    (request : models.EvacuateCrashedActualLRPRequest K I)
    (err : Option R) (store : S)
    (hp : pkg.parseEvacuateCrashedActualLRPRequest req = Except.ok request)
    (hc : h.controller.EvacuateCrashedActualLRP w.store
      request.ActualLrpKey request.ActualLrpInstanceKey request.ErrorMessage = (err, store)) :
    EvacuateCrashedActualLRP h pkg req w =
      { response := { Error := pkg.ConvertError err, KeepContainer := false }
        store := store
        exitChan := pkg.exitIfUnrecoverable w.exitChan (pkg.ConvertError err)
        trace := [
          Event.logInfo "evacuate-crashed-actual-lrp" "started",
          Event.parseRequest none,
          Event.controller (ControllerCall.EvacuateCrashedActualLRP
            request.ActualLrpKey request.ActualLrpInstanceKey request.ErrorMessage),
          Event.setError (pkg.ConvertError err),
          Event.writeResponse (Message.EvacuationResponse
            { Error := pkg.ConvertError err, KeepContainer := false }),
          Event.exitIfUnrecoverable (pkg.ConvertError err),
          Event.logInfo "evacuate-crashed-actual-lrp" "completed"] } := by
  unfold EvacuateCrashedActualLRP
  simp only [hp]
  simp only [State.enter, State.emit, setKeepContainer, setError, setRemoveError, called, hc]
  rfl

theorem EvacuateRunningActualLRP_invalid (h : EvacuationHandler S K I N R)
    (pkg : Package Q K I N R) (req : Q) (w : World S) (e : R)
    (hp : pkg.parseEvacuateRunningActualLRPRequest req = Except.error e) :
    EvacuateRunningActualLRP h pkg req w =
      { response := { Error := pkg.ConvertError (some e), KeepContainer := true }
        store := w.store
        exitChan := pkg.exitIfUnrecoverable w.exitChan (pkg.ConvertError (some e))
        trace := [
          Event.logInfo "evacuate-running-actual-lrp" "starting",
          Event.setKeepContainer true,
          Event.parseRequest (some e),
          Event.setError (pkg.ConvertError (some e)),
          Event.writeResponse (Message.EvacuationResponse
            { Error := pkg.ConvertError (some e), KeepContainer := true }),
          Event.exitIfUnrecoverable (pkg.ConvertError (some e)),
          Event.logInfo "evacuate-running-actual-lrp" "completed"] } := by
  unfold EvacuateRunningActualLRP
  simp only [hp]
  rfl

theorem EvacuateRunningActualLRP_valid (h : EvacuationHandler S K I N R)
    (pkg : Package Q K I N R) (req : Q) (w : World S)
    (request : models.EvacuateRunningActualLRPRequest K I N)
    (err : Option R) (keepContainer : Bool) (store : S)
    (hp : pkg.parseEvacuateRunningActualLRPRequest req = Except.ok request)
    (hc : h.controller.EvacuateRunningActualLRP w.store
      request.ActualLrpKey request.ActualLrpInstanceKey request.ActualLrpNetInfo = ((err, keepContainer), store)) :
    EvacuateRunningActualLRP h pkg req w =
      { response := { Error := pkg.ConvertError err, KeepContainer := keepContainer }
        store := store
        exitChan := pkg.exitIfUnrecoverable w.exitChan (pkg.ConvertError err)
        trace := [
          Event.logInfo "evacuate-running-actual-lrp" "starting",
          Event.setKeepContainer true,
          Event.parseRequest none,
          Event.controller (ControllerCall.EvacuateRunningActualLRP
            request.ActualLrpKey request.ActualLrpInstanceKey request.ActualLrpNetInfo),
          Event.setError (pkg.ConvertError err),
          Event.setKeepContainer keepContainer,
          Event.writeResponse (Message.EvacuationResponse
            { Error := pkg.ConvertError err, KeepContainer := keepContainer }),
          Event.exitIfUnrecoverable (pkg.ConvertError err),
          Event.logInfo "evacuate-running-actual-lrp" "completed"] } := by
  unfold EvacuateRunningActualLRP
  simp only [hp]
  simp only [State.enter, State.emit, setKeepContainer, setError, setRemoveError, called, hc]
  rfl

theorem EvacuateStoppedActualLRP_invalid (h : EvacuationHandler S K I N R)
    (pkg : Package Q K I N R) (req : Q) (w : World S) (e : R)
    (hp : pkg.parseEvacuateStoppedActualLRPRequest req = Except.error e) :
    EvacuateStoppedActualLRP h pkg req w =
      { response := { Error := pkg.ConvertError (some e), KeepContainer := false }
        store := w.store
        exitChan := pkg.exitIfUnrecoverable w.exitChan (pkg.ConvertError (some e))
        trace := [
          Event.parseRequest (some e),
          Event.logError "evacuate-stopped-actual-lrp" "failed-to-parse-request" e,
          Event.setError (pkg.ConvertError (some e)),
          Event.writeResponse (Message.EvacuationResponse
            { Error := pkg.ConvertError (some e), KeepContainer := false }),
          Event.exitIfUnrecoverable (pkg.ConvertError (some e))] } := by
  unfold EvacuateStoppedActualLRP
  simp only [hp]
  rfl

theorem EvacuateStoppedActualLRP_valid (h : EvacuationHandler S K I N R)
    (pkg : Package Q K I N R) (req : Q) (w : World S)
    (request : models.EvacuateStoppedActualLRPRequest K I)
    (err : Option R) (store : S)
    (hp : pkg.parseEvacuateStoppedActualLRPRequest req = Except.ok request)
    (hc : h.controller.EvacuateStoppedActualLRP w.store
      request.ActualLrpKey request.ActualLrpInstanceKey = (err, store)) :
    EvacuateStoppedActualLRP h pkg req w =
      { response := { Error := pkg.ConvertError err, KeepContainer := false }
        store := store
        exitChan := pkg.exitIfUnrecoverable w.exitChan (pkg.ConvertError err)
        trace := [
          Event.parseRequest none,
          Event.controller (ControllerCall.EvacuateStoppedActualLRP
            request.ActualLrpKey request.ActualLrpInstanceKey),
          Event.setError (pkg.ConvertError err),
          Event.writeResponse (Message.EvacuationResponse
            { Error := pkg.ConvertError err, KeepContainer := false }),
          Event.exitIfUnrecoverable (pkg.ConvertError err)] } := by
  unfold EvacuateStoppedActualLRP
  simp only [hp]
  simp only [State.enter, State.emit, setKeepContainer, setError, setRemoveError, called, hc]
  rfl

end paths

/-! ## Validation failure -/

section claims

variable {S Q K I N R : Type}

/-- C1: when `parseRequest` fails with error `e`, each of the five handlers
makes no controller call (the trace holds none and the store is untouched)
and the response, as left in the struct and as transmitted, has
`Error = ConvertError(e)`. -/
theorem parse_failure_skips_controller (h : EvacuationHandler S K I N R)
    (pkg : Package Q K I N R) (req : Q) (w : World S) (e : R) :
    (pkg.parseRemoveEvacuatingActualLRPRequest req = Except.error e →
      controllerCalls (RemoveEvacuatingActualLRP h pkg req w).trace = [] ∧
      (RemoveEvacuatingActualLRP h pkg req w).store = w.store ∧
      (RemoveEvacuatingActualLRP h pkg req w).response.Error = pkg.ConvertError (some e) ∧
      (written (RemoveEvacuatingActualLRP h pkg req w).trace).map Message.Error
        = [pkg.ConvertError (some e)]) ∧
    (pkg.parseEvacuateClaimedActualLRPRequest req = Except.error e →
      controllerCalls (EvacuateClaimedActualLRP h pkg req w).trace = [] ∧
      (EvacuateClaimedActualLRP h pkg req w).store = w.store ∧
      (EvacuateClaimedActualLRP h pkg req w).response.Error = pkg.ConvertError (some e) ∧
      (written (EvacuateClaimedActualLRP h pkg req w).trace).map Message.Error
        = [pkg.ConvertError (some e)]) ∧
    (pkg.parseEvacuateCrashedActualLRPRequest req = Except.error e →
      controllerCalls (EvacuateCrashedActualLRP h pkg req w).trace = [] ∧
      (EvacuateCrashedActualLRP h pkg req w).store = w.store ∧
      (EvacuateCrashedActualLRP h pkg req w).response.Error = pkg.ConvertError (some e) ∧
      (written (EvacuateCrashedActualLRP h pkg req w).trace).map Message.Error
        = [pkg.ConvertError (some e)]) ∧
    (pkg.parseEvacuateRunningActualLRPRequest req = Except.error e →
      controllerCalls (EvacuateRunningActualLRP h pkg req w).trace = [] ∧
      (EvacuateRunningActualLRP h pkg req w).store = w.store ∧
      (EvacuateRunningActualLRP h pkg req w).response.Error = pkg.ConvertError (some e) ∧
      (written (EvacuateRunningActualLRP h pkg req w).trace).map Message.Error
        = [pkg.ConvertError (some e)]) ∧
    (pkg.parseEvacuateStoppedActualLRPRequest req = Except.error e →
      controllerCalls (EvacuateStoppedActualLRP h pkg req w).trace = [] ∧
      (EvacuateStoppedActualLRP h pkg req w).store = w.store ∧
      (EvacuateStoppedActualLRP h pkg req w).response.Error = pkg.ConvertError (some e) ∧
      (written (EvacuateStoppedActualLRP h pkg req w).trace).map Message.Error
        = [pkg.ConvertError (some e)]) := by
  refine ⟨fun hp => ?_, fun hp => ?_, fun hp => ?_, fun hp => ?_, fun hp => ?_⟩
  · rw [RemoveEvacuatingActualLRP_invalid h pkg req w e hp]
    exact ⟨rfl, rfl, rfl, rfl⟩
  · rw [EvacuateClaimedActualLRP_invalid h pkg req w e hp]
    exact ⟨rfl, rfl, rfl, rfl⟩
  · rw [EvacuateCrashedActualLRP_invalid h pkg req w e hp]
    exact ⟨rfl, rfl, rfl, rfl⟩
  · rw [EvacuateRunningActualLRP_invalid h pkg req w e hp]
    exact ⟨rfl, rfl, rfl, rfl⟩
  · rw [EvacuateStoppedActualLRP_invalid h pkg req w e hp]
    exact ⟨rfl, rfl, rfl, rfl⟩

/-- C1 at the invalid request `0`, with a controller that would succeed: no
handler calls it, the call counter stays at 0, and each response carries the
converted validation error. -/
theorem parse_failure_skips_controller_witness :
    stubPackage.parseRemoveEvacuatingActualLRPRequest 0 = Except.error stubInvalid ∧
    stubPackage.parseEvacuateClaimedActualLRPRequest 0 = Except.error stubInvalid ∧
    stubPackage.parseEvacuateCrashedActualLRPRequest 0 = Except.error stubInvalid ∧
    stubPackage.parseEvacuateRunningActualLRPRequest 0 = Except.error stubInvalid ∧
    stubPackage.parseEvacuateStoppedActualLRPRequest 0 = Except.error stubInvalid ∧
    (controllerCalls (RemoveEvacuatingActualLRP (stubHandler none false) stubPackage 0 stubWorld).trace = [] ∧
      (RemoveEvacuatingActualLRP (stubHandler none false) stubPackage 0 stubWorld).store = 0 ∧
      (RemoveEvacuatingActualLRP (stubHandler none false) stubPackage 0 stubWorld).response.Error
        = models.ConvertError (some stubInvalid)) ∧
    (controllerCalls (EvacuateClaimedActualLRP (stubHandler none false) stubPackage 0 stubWorld).trace = [] ∧
      (EvacuateClaimedActualLRP (stubHandler none false) stubPackage 0 stubWorld).store = 0 ∧
      (EvacuateClaimedActualLRP (stubHandler none false) stubPackage 0 stubWorld).response.Error
        = models.ConvertError (some stubInvalid)) ∧
    (controllerCalls (EvacuateCrashedActualLRP (stubHandler none false) stubPackage 0 stubWorld).trace = [] ∧
      (EvacuateCrashedActualLRP (stubHandler none false) stubPackage 0 stubWorld).store = 0 ∧
      (EvacuateCrashedActualLRP (stubHandler none false) stubPackage 0 stubWorld).response.Error
        = models.ConvertError (some stubInvalid)) ∧
    (controllerCalls (EvacuateRunningActualLRP (stubHandler none false) stubPackage 0 stubWorld).trace = [] ∧
      (EvacuateRunningActualLRP (stubHandler none false) stubPackage 0 stubWorld).store = 0 ∧
      (EvacuateRunningActualLRP (stubHandler none false) stubPackage 0 stubWorld).response.Error
        = models.ConvertError (some stubInvalid)) ∧
    (controllerCalls (EvacuateStoppedActualLRP (stubHandler none false) stubPackage 0 stubWorld).trace = [] ∧
      (EvacuateStoppedActualLRP (stubHandler none false) stubPackage 0 stubWorld).store = 0 ∧
      (EvacuateStoppedActualLRP (stubHandler none false) stubPackage 0 stubWorld).response.Error
        = models.ConvertError (some stubInvalid)) :=
  have t := parse_failure_skips_controller (stubHandler none false) stubPackage 0 stubWorld stubInvalid
  ⟨rfl, rfl, rfl, rfl, rfl,
   ⟨(t.1 rfl).1, (t.1 rfl).2.1, (t.1 rfl).2.2.1⟩,
   ⟨(t.2.1 rfl).1, (t.2.1 rfl).2.1, (t.2.1 rfl).2.2.1⟩,
   ⟨(t.2.2.1 rfl).1, (t.2.2.1 rfl).2.1, (t.2.2.1 rfl).2.2.1⟩,
   ⟨(t.2.2.2.1 rfl).1, (t.2.2.2.1 rfl).2.1, (t.2.2.2.1 rfl).2.2.1⟩,
   ⟨(t.2.2.2.2 rfl).1, (t.2.2.2.2 rfl).2.1, (t.2.2.2.2 rfl).2.2.1⟩⟩

/-- C3: when `parseRequest` fails with error `e`, EvacuateClaimedActualLRP
transmits `Error = ConvertError(e)` with `KeepContainer = true`, and its
failure branch (the steps after the parse) assigns KeepContainer, namely
`true`; the failure branches of the other three handlers that answer with an
EvacuationResponse (Crashed, Running, Stopped) assign KeepContainer nowhere. -/
theorem claimed_parse_failure_forces_keep (h : EvacuationHandler S K I N R)
    (pkg : Package Q K I N R) (req : Q) (w : World S) (e : R) :
    (pkg.parseEvacuateClaimedActualLRPRequest req = Except.error e →
      written (EvacuateClaimedActualLRP h pkg req w).trace
        = [Message.EvacuationResponse
            { Error := pkg.ConvertError (some e), KeepContainer := true }] ∧
      keepAssignments (afterParse (EvacuateClaimedActualLRP h pkg req w).trace) = [true]) ∧
    (pkg.parseEvacuateCrashedActualLRPRequest req = Except.error e →
      keepAssignments (afterParse (EvacuateCrashedActualLRP h pkg req w).trace) = []) ∧
    (pkg.parseEvacuateRunningActualLRPRequest req = Except.error e →
      keepAssignments (afterParse (EvacuateRunningActualLRP h pkg req w).trace) = []) ∧
    (pkg.parseEvacuateStoppedActualLRPRequest req = Except.error e →
      keepAssignments (afterParse (EvacuateStoppedActualLRP h pkg req w).trace) = []) := by
  refine ⟨fun hp => ?_, fun hp => ?_, fun hp => ?_, fun hp => ?_⟩
  · rw [EvacuateClaimedActualLRP_invalid h pkg req w e hp]
    exact ⟨rfl, rfl⟩
  · rw [EvacuateCrashedActualLRP_invalid h pkg req w e hp]
    rfl
  · rw [EvacuateRunningActualLRP_invalid h pkg req w e hp]
    rfl
  · rw [EvacuateStoppedActualLRP_invalid h pkg req w e hp]
    rfl

/-- C3 at the invalid request `0`: Claimed answers keep = true with the
validation error, by an assignment in its failure branch; Crashed, Running
and Stopped assign nothing after the failed parse. -/
theorem claimed_parse_failure_forces_keep_witness :
    stubPackage.parseEvacuateClaimedActualLRPRequest 0 = Except.error stubInvalid ∧
    stubPackage.parseEvacuateCrashedActualLRPRequest 0 = Except.error stubInvalid ∧
    stubPackage.parseEvacuateRunningActualLRPRequest 0 = Except.error stubInvalid ∧
    stubPackage.parseEvacuateStoppedActualLRPRequest 0 = Except.error stubInvalid ∧
    (written (EvacuateClaimedActualLRP (stubHandler none false) stubPackage 0 stubWorld).trace
        = [Message.EvacuationResponse
            { Error := models.ConvertError (some stubInvalid), KeepContainer := true }] ∧
      keepAssignments
        (afterParse (EvacuateClaimedActualLRP (stubHandler none false) stubPackage 0 stubWorld).trace)
        = [true]) ∧
    keepAssignments
      (afterParse (EvacuateCrashedActualLRP (stubHandler none false) stubPackage 0 stubWorld).trace)
      = [] ∧
    keepAssignments
      (afterParse (EvacuateRunningActualLRP (stubHandler none false) stubPackage 0 stubWorld).trace)
      = [] ∧
    keepAssignments
      (afterParse (EvacuateStoppedActualLRP (stubHandler none false) stubPackage 0 stubWorld).trace)
      = [] :=
  have t := claimed_parse_failure_forces_keep (stubHandler none false) stubPackage 0 stubWorld
    stubInvalid
  ⟨rfl, rfl, rfl, rfl, t.1 rfl, t.2.1 rfl, t.2.2.1 rfl, t.2.2.2 rfl⟩

/-- C8: when `parseRequest` fails, EvacuateRunningActualLRP leaves
KeepContainer at the value it had before the parse, which is the `true`
assigned at the top of the handler; EvacuateCrashedActualLRP and
EvacuateStoppedActualLRP never assign it, so it stays at the zero value
`false`.  The transmitted responses carry these values. -/
theorem parse_failure_leaves_keep_default (h : EvacuationHandler S K I N R)
    (pkg : Package Q K I N R) (req : Q) (w : World S) (e : R) :
    (pkg.parseEvacuateRunningActualLRPRequest req = Except.error e →
      keepAssignments (uptoParse (EvacuateRunningActualLRP h pkg req w).trace) = [true] ∧
      keepAssignments (afterParse (EvacuateRunningActualLRP h pkg req w).trace) = [] ∧
      (EvacuateRunningActualLRP h pkg req w).response.KeepContainer = true ∧
      (written (EvacuateRunningActualLRP h pkg req w).trace).map Message.KeepContainer
        = [some true]) ∧
    (pkg.parseEvacuateCrashedActualLRPRequest req = Except.error e →
      keepAssignments (EvacuateCrashedActualLRP h pkg req w).trace = [] ∧
      (EvacuateCrashedActualLRP h pkg req w).response.KeepContainer = false ∧
      (written (EvacuateCrashedActualLRP h pkg req w).trace).map Message.KeepContainer
        = [some false]) ∧
    (pkg.parseEvacuateStoppedActualLRPRequest req = Except.error e →
      keepAssignments (EvacuateStoppedActualLRP h pkg req w).trace = [] ∧
      (EvacuateStoppedActualLRP h pkg req w).response.KeepContainer = false ∧
      (written (EvacuateStoppedActualLRP h pkg req w).trace).map Message.KeepContainer
        = [some false]) := by
  refine ⟨fun hp => ?_, fun hp => ?_, fun hp => ?_⟩
  · rw [EvacuateRunningActualLRP_invalid h pkg req w e hp]
    exact ⟨rfl, rfl, rfl, rfl⟩
  · rw [EvacuateCrashedActualLRP_invalid h pkg req w e hp]
    exact ⟨rfl, rfl, rfl⟩
  · rw [EvacuateStoppedActualLRP_invalid h pkg req w e hp]
    exact ⟨rfl, rfl, rfl⟩

/-- C8 at the invalid request `0`: Running transmits keep = true, Crashed and
Stopped transmit keep = false. -/
theorem parse_failure_leaves_keep_default_witness :
    stubPackage.parseEvacuateRunningActualLRPRequest 0 = Except.error stubInvalid ∧
    stubPackage.parseEvacuateCrashedActualLRPRequest 0 = Except.error stubInvalid ∧
    stubPackage.parseEvacuateStoppedActualLRPRequest 0 = Except.error stubInvalid ∧
    (written (EvacuateRunningActualLRP (stubHandler none false) stubPackage 0 stubWorld).trace).map
        Message.KeepContainer = [some true] ∧
    (written (EvacuateCrashedActualLRP (stubHandler none false) stubPackage 0 stubWorld).trace).map
        Message.KeepContainer = [some false] ∧
    (written (EvacuateStoppedActualLRP (stubHandler none false) stubPackage 0 stubWorld).trace).map
        Message.KeepContainer = [some false] :=
  have t := parse_failure_leaves_keep_default (stubHandler none false) stubPackage 0 stubWorld
    stubInvalid
  ⟨rfl, rfl, rfl, (t.1 rfl).2.2.2, (t.2.1 rfl).2.2, (t.2.2 rfl).2.2⟩

/-! ## Controller outcome -/

/-- C4: with a successfully parsed request and a controller call returning
`(err, k)`, EvacuateClaimedActualLRP and EvacuateRunningActualLRP respond
with `Error = ConvertError(err)` and `KeepContainer = k`.  For Running the
assignments to KeepContainer are `true` (before the parse) and then `k`; in
particular the outcome (no error, keep = false) gives `KeepContainer = false`
although `true` had been assigned before the call. -/
theorem controller_decision_is_adopted (h : EvacuationHandler S K I N R)
    (pkg : Package Q K I N R) (req : Q) (w : World S) :
    (∀ (request : models.EvacuateClaimedActualLRPRequest K I) (err : Option R) (k : Bool)
        (store : S),
      pkg.parseEvacuateClaimedActualLRPRequest req = Except.ok request →
      h.controller.EvacuateClaimedActualLRP w.store
        request.ActualLrpKey request.ActualLrpInstanceKey = ((err, k), store) →
      (EvacuateClaimedActualLRP h pkg req w).response
        = { Error := pkg.ConvertError err, KeepContainer := k } ∧
      written (EvacuateClaimedActualLRP h pkg req w).trace
        = [Message.EvacuationResponse { Error := pkg.ConvertError err, KeepContainer := k }]) ∧
    (∀ (request : models.EvacuateRunningActualLRPRequest K I N) (err : Option R) (k : Bool)
        (store : S),
      pkg.parseEvacuateRunningActualLRPRequest req = Except.ok request →
      h.controller.EvacuateRunningActualLRP w.store
        request.ActualLrpKey request.ActualLrpInstanceKey request.ActualLrpNetInfo
          = ((err, k), store) →
      (EvacuateRunningActualLRP h pkg req w).response
        = { Error := pkg.ConvertError err, KeepContainer := k } ∧
      written (EvacuateRunningActualLRP h pkg req w).trace
        = [Message.EvacuationResponse { Error := pkg.ConvertError err, KeepContainer := k }] ∧
      keepAssignments (EvacuateRunningActualLRP h pkg req w).trace = [true, k]) ∧
    (∀ (request : models.EvacuateRunningActualLRPRequest K I N) (store : S),
      pkg.parseEvacuateRunningActualLRPRequest req = Except.ok request →
      h.controller.EvacuateRunningActualLRP w.store
        request.ActualLrpKey request.ActualLrpInstanceKey request.ActualLrpNetInfo
          = ((none, false), store) →
      keepAssignments (uptoParse (EvacuateRunningActualLRP h pkg req w).trace) = [true] ∧
      (EvacuateRunningActualLRP h pkg req w).response.KeepContainer = false ∧
      (written (EvacuateRunningActualLRP h pkg req w).trace).map Message.KeepContainer
        = [some false]) := by
  refine ⟨fun request err k store hp hc => ?_, fun request err k store hp hc => ?_,
    fun request store hp hc => ?_⟩
  · rw [EvacuateClaimedActualLRP_valid h pkg req w request err k store hp hc]
    exact ⟨rfl, rfl⟩
  · rw [EvacuateRunningActualLRP_valid h pkg req w request err k store hp hc]
    exact ⟨rfl, rfl, rfl⟩
  · rw [EvacuateRunningActualLRP_valid h pkg req w request none false store hp hc]
    exact ⟨rfl, rfl, rfl⟩

/-- C4 at the valid request `1`: Claimed against a controller answering
(not found, keep = true) responds with that error and keep = true; Running
against a controller answering (no error, keep = false) responds keep = false. -/
theorem controller_decision_is_adopted_witness :
    stubPackage.parseEvacuateClaimedActualLRPRequest 1
      = Except.ok { ActualLrpKey := 1, ActualLrpInstanceKey := 2 } ∧
    stubPackage.parseEvacuateRunningActualLRPRequest 1
      = Except.ok { ActualLrpKey := 1, ActualLrpInstanceKey := 2, ActualLrpNetInfo := 3 } ∧
    (stubHandler (some stubNotFound) true).controller.EvacuateClaimedActualLRP 0 1 2
      = ((some stubNotFound, true), 1) ∧
    (stubHandler none false).controller.EvacuateRunningActualLRP 0 1 2 3 = ((none, false), 1) ∧
    written (EvacuateClaimedActualLRP (stubHandler (some stubNotFound) true) stubPackage 1
        stubWorld).trace
      = [Message.EvacuationResponse
          { Error := models.ConvertError (some stubNotFound), KeepContainer := true }] ∧
    written (EvacuateRunningActualLRP (stubHandler none false) stubPackage 1 stubWorld).trace
      = [Message.EvacuationResponse { Error := models.ConvertError none, KeepContainer := false }] ∧
    keepAssignments (EvacuateRunningActualLRP (stubHandler none false) stubPackage 1 stubWorld).trace
      = [true, false] ∧
    (written (EvacuateRunningActualLRP (stubHandler none false) stubPackage 1 stubWorld).trace).map
      Message.KeepContainer = [some false] :=
  ⟨rfl, rfl, rfl, rfl,
   ((controller_decision_is_adopted (stubHandler (some stubNotFound) true) stubPackage 1
      stubWorld).1 _ _ _ _ rfl rfl).2,
   ((controller_decision_is_adopted (stubHandler none false) stubPackage 1
      stubWorld).2.1 _ _ _ _ rfl rfl).2.1,
   ((controller_decision_is_adopted (stubHandler none false) stubPackage 1
      stubWorld).2.1 _ _ _ _ rfl rfl).2.2,
   ((controller_decision_is_adopted (stubHandler none false) stubPackage 1
      stubWorld).2.2 _ _ rfl rfl).2.2⟩

/-- C2 as stated fails: request `1` parses, the controller call fails with a
not-found error and keep = false, and EvacuateRunningActualLRP responds with
`KeepContainer = false`, not with the `true` assigned before the call. -/
theorem running_failure_overrides_keep_default :
    stubPackage.parseEvacuateRunningActualLRPRequest 1
      = Except.ok { ActualLrpKey := 1, ActualLrpInstanceKey := 2, ActualLrpNetInfo := 3 } ∧
    (stubHandler (some stubNotFound) false).controller.EvacuateRunningActualLRP 0 1 2 3
      = ((some stubNotFound, false), 1) ∧
    (EvacuateRunningActualLRP (stubHandler (some stubNotFound) false) stubPackage 1 stubWorld).response.KeepContainer = false ∧
    written (EvacuateRunningActualLRP (stubHandler (some stubNotFound) false) stubPackage 1 stubWorld).trace
      = [Message.EvacuationResponse
          { Error := some { Class := models.ErrorType.NotFoundError, Message := "not found" }
            KeepContainer := false }] :=
  ⟨rfl, rfl, rfl, rfl⟩

/-- C2 (amended): for EvacuateRunningActualLRP with a successfully parsed
request, when the controller call fails, returning a non-nil error together
with the retention decision `k`, the response's KeepContainer is `k`: the
`true` assigned before the call is overwritten by the controller's value and
so survives exactly when the controller returns `true`. -/
theorem running_failure_keeps_controller_decision (h : EvacuationHandler S K I N R)
    (pkg : Package Q K I N R) (req : Q) (w : World S)
    (request : models.EvacuateRunningActualLRPRequest K I N) (err : R) (k : Bool) (store : S)
    (hp : pkg.parseEvacuateRunningActualLRPRequest req = Except.ok request)
    (hc : h.controller.EvacuateRunningActualLRP w.store
      request.ActualLrpKey request.ActualLrpInstanceKey request.ActualLrpNetInfo
        = ((some err, k), store)) :
    (EvacuateRunningActualLRP h pkg req w).response.KeepContainer = k ∧
    (written (EvacuateRunningActualLRP h pkg req w).trace).map Message.KeepContainer = [some k] ∧
    keepAssignments (EvacuateRunningActualLRP h pkg req w).trace = [true, k] ∧
    ((EvacuateRunningActualLRP h pkg req w).response.KeepContainer = true ↔ k = true) := by
  rw [EvacuateRunningActualLRP_valid h pkg req w request (some err) k store hp hc]
  exact ⟨rfl, rfl, rfl, Iff.rfl⟩

/-- C2 (amended) at the valid request `1` with a controller failing with
(not found, keep = true): the response keeps the container. -/
theorem running_failure_keeps_controller_decision_witness :
    stubPackage.parseEvacuateRunningActualLRPRequest 1
      = Except.ok { ActualLrpKey := 1, ActualLrpInstanceKey := 2, ActualLrpNetInfo := 3 } ∧
    (stubHandler (some stubNotFound) true).controller.EvacuateRunningActualLRP 0 1 2 3
      = ((some stubNotFound, true), 1) ∧
    (EvacuateRunningActualLRP (stubHandler (some stubNotFound) true) stubPackage 1
      stubWorld).response.KeepContainer = true :=
  ⟨rfl, rfl,
   (running_failure_keeps_controller_decision (stubHandler (some stubNotFound) true) stubPackage 1
      stubWorld { ActualLrpKey := 1, ActualLrpInstanceKey := 2, ActualLrpNetInfo := 3 }
      stubNotFound true 1 rfl rfl).1⟩

/-! ## Escalation and transmission -/

/-- C5: on every path of every handler `exitIfUnrecoverable` runs exactly
once, and the error it is given is the final `response.Error`, the value the
body assigned, read when the deferred closure runs.  Consequently, with a
monitor that sends one signal exactly when its argument is of the
unrecoverable class, a request sends one signal when its response error is an
UnrecoverableError and none when the error is absent, a ConflictError or a
NotFoundError. -/
theorem escalation_runs_once_with_final_error (h : EvacuationHandler S K I N R)
    (pkg : Package Q K I N R) (req : Q) (w : World S) :
    (escalations (RemoveEvacuatingActualLRP h pkg req w).trace = [(RemoveEvacuatingActualLRP h pkg req w).response.Error] ∧
      errorAssignments (RemoveEvacuatingActualLRP h pkg req w).trace = [(RemoveEvacuatingActualLRP h pkg req w).response.Error] ∧
      ((∀ c e, pkg.exitIfUnrecoverable c e = if isUnrecoverable e then c + 1 else c) →
        (RemoveEvacuatingActualLRP h pkg req w).exitChan
          = if isUnrecoverable (RemoveEvacuatingActualLRP h pkg req w).response.Error then w.exitChan + 1 else w.exitChan)) ∧
    (escalations (EvacuateClaimedActualLRP h pkg req w).trace = [(EvacuateClaimedActualLRP h pkg req w).response.Error] ∧
      errorAssignments (EvacuateClaimedActualLRP h pkg req w).trace = [(EvacuateClaimedActualLRP h pkg req w).response.Error] ∧
      ((∀ c e, pkg.exitIfUnrecoverable c e = if isUnrecoverable e then c + 1 else c) →
        (EvacuateClaimedActualLRP h pkg req w).exitChan
          = if isUnrecoverable (EvacuateClaimedActualLRP h pkg req w).response.Error then w.exitChan + 1 else w.exitChan)) ∧
    (escalations (EvacuateCrashedActualLRP h pkg req w).trace = [(EvacuateCrashedActualLRP h pkg req w).response.Error] ∧
      errorAssignments (EvacuateCrashedActualLRP h pkg req w).trace = [(EvacuateCrashedActualLRP h pkg req w).response.Error] ∧
      ((∀ c e, pkg.exitIfUnrecoverable c e = if isUnrecoverable e then c + 1 else c) →
        (EvacuateCrashedActualLRP h pkg req w).exitChan
          = if isUnrecoverable (EvacuateCrashedActualLRP h pkg req w).response.Error then w.exitChan + 1 else w.exitChan)) ∧
    (escalations (EvacuateRunningActualLRP h pkg req w).trace = [(EvacuateRunningActualLRP h pkg req w).response.Error] ∧
      errorAssignments (EvacuateRunningActualLRP h pkg req w).trace = [(EvacuateRunningActualLRP h pkg req w).response.Error] ∧
      ((∀ c e, pkg.exitIfUnrecoverable c e = if isUnrecoverable e then c + 1 else c) →
        (EvacuateRunningActualLRP h pkg req w).exitChan
          = if isUnrecoverable (EvacuateRunningActualLRP h pkg req w).response.Error then w.exitChan + 1 else w.exitChan)) ∧
    (escalations (EvacuateStoppedActualLRP h pkg req w).trace = [(EvacuateStoppedActualLRP h pkg req w).response.Error] ∧
      errorAssignments (EvacuateStoppedActualLRP h pkg req w).trace = [(EvacuateStoppedActualLRP h pkg req w).response.Error] ∧
      ((∀ c e, pkg.exitIfUnrecoverable c e = if isUnrecoverable e then c + 1 else c) →
        (EvacuateStoppedActualLRP h pkg req w).exitChan
          = if isUnrecoverable (EvacuateStoppedActualLRP h pkg req w).response.Error then w.exitChan + 1 else w.exitChan)) ∧
    (∀ msg : String,
      isUnrecoverable (some { Class := models.ErrorType.UnrecoverableError, Message := msg }) = true ∧
      isUnrecoverable none = false ∧
      isUnrecoverable (some { Class := models.ErrorType.ConflictError, Message := msg }) = false ∧
      isUnrecoverable (some { Class := models.ErrorType.NotFoundError, Message := msg }) = false) := by
  refine ⟨?_, ?_, ?_, ?_, ?_, fun msg => ⟨rfl, rfl, rfl, rfl⟩⟩
  · cases hp : pkg.parseRemoveEvacuatingActualLRPRequest req with
    | error e =>
      rw [RemoveEvacuatingActualLRP_invalid h pkg req w e hp]
      exact ⟨rfl, rfl, fun hm => hm _ _⟩
    | ok request =>
      rcases hc : h.controller.RemoveEvacuatingActualLRP w.store
        request.ActualLrpKey request.ActualLrpInstanceKey with ⟨err, store⟩
      rw [RemoveEvacuatingActualLRP_valid h pkg req w request err store hp hc]
      exact ⟨rfl, rfl, fun hm => hm _ _⟩
  · cases hp : pkg.parseEvacuateClaimedActualLRPRequest req with
    | error e =>
      rw [EvacuateClaimedActualLRP_invalid h pkg req w e hp]
      exact ⟨rfl, rfl, fun hm => hm _ _⟩
    | ok request =>
      rcases hc : h.controller.EvacuateClaimedActualLRP w.store
        request.ActualLrpKey request.ActualLrpInstanceKey with ⟨⟨err, k⟩, store⟩
      rw [EvacuateClaimedActualLRP_valid h pkg req w request err k store hp hc]
      exact ⟨rfl, rfl, fun hm => hm _ _⟩
  · cases hp : pkg.parseEvacuateCrashedActualLRPRequest req with
    | error e =>
      rw [EvacuateCrashedActualLRP_invalid h pkg req w e hp]
      exact ⟨rfl, rfl, fun hm => hm _ _⟩
    | ok request =>
      rcases hc : h.controller.EvacuateCrashedActualLRP w.store
        request.ActualLrpKey request.ActualLrpInstanceKey request.ErrorMessage with ⟨err, store⟩
      rw [EvacuateCrashedActualLRP_valid h pkg req w request err store hp hc]
      exact ⟨rfl, rfl, fun hm => hm _ _⟩
  · cases hp : pkg.parseEvacuateRunningActualLRPRequest req with
    | error e =>
      rw [EvacuateRunningActualLRP_invalid h pkg req w e hp]
      exact ⟨rfl, rfl, fun hm => hm _ _⟩
    | ok request =>
      rcases hc : h.controller.EvacuateRunningActualLRP w.store
        request.ActualLrpKey request.ActualLrpInstanceKey request.ActualLrpNetInfo with ⟨⟨err, k⟩, store⟩
      rw [EvacuateRunningActualLRP_valid h pkg req w request err k store hp hc]
      exact ⟨rfl, rfl, fun hm => hm _ _⟩
  · cases hp : pkg.parseEvacuateStoppedActualLRPRequest req with
    | error e =>
      rw [EvacuateStoppedActualLRP_invalid h pkg req w e hp]
      exact ⟨rfl, rfl, fun hm => hm _ _⟩
    | ok request =>
      rcases hc : h.controller.EvacuateStoppedActualLRP w.store
        request.ActualLrpKey request.ActualLrpInstanceKey with ⟨err, store⟩
      rw [EvacuateStoppedActualLRP_valid h pkg req w request err store hp hc]
      exact ⟨rfl, rfl, fun hm => hm _ _⟩

/-- C7: on every path of every handler `writeResponse` runs exactly once; the
message it transmits is the response struct as the body left it, so it carries
the one Error the body assigned and the last KeepContainer the body assigned
(`false` when it assigned none); and that Error is an output of
`ConvertError`. -/
theorem one_response_with_final_values (h : EvacuationHandler S K I N R)
    (pkg : Package Q K I N R) (req : Q) (w : World S) :
    (written (RemoveEvacuatingActualLRP h pkg req w).trace
        = [Message.RemoveEvacuatingActualLRPResponse (RemoveEvacuatingActualLRP h pkg req w).response] ∧
      errorAssignments (RemoveEvacuatingActualLRP h pkg req w).trace = [(RemoveEvacuatingActualLRP h pkg req w).response.Error] ∧
      ∃ raw, (RemoveEvacuatingActualLRP h pkg req w).response.Error = pkg.ConvertError raw) ∧
    (written (EvacuateClaimedActualLRP h pkg req w).trace
        = [Message.EvacuationResponse (EvacuateClaimedActualLRP h pkg req w).response] ∧
      errorAssignments (EvacuateClaimedActualLRP h pkg req w).trace = [(EvacuateClaimedActualLRP h pkg req w).response.Error] ∧
      (keepAssignments (EvacuateClaimedActualLRP h pkg req w).trace).getLast?.getD false
        = (EvacuateClaimedActualLRP h pkg req w).response.KeepContainer ∧
      ∃ raw, (EvacuateClaimedActualLRP h pkg req w).response.Error = pkg.ConvertError raw) ∧
    (written (EvacuateCrashedActualLRP h pkg req w).trace
        = [Message.EvacuationResponse (EvacuateCrashedActualLRP h pkg req w).response] ∧
      errorAssignments (EvacuateCrashedActualLRP h pkg req w).trace = [(EvacuateCrashedActualLRP h pkg req w).response.Error] ∧
      (keepAssignments (EvacuateCrashedActualLRP h pkg req w).trace).getLast?.getD false
        = (EvacuateCrashedActualLRP h pkg req w).response.KeepContainer ∧
      ∃ raw, (EvacuateCrashedActualLRP h pkg req w).response.Error = pkg.ConvertError raw) ∧
    (written (EvacuateRunningActualLRP h pkg req w).trace
        = [Message.EvacuationResponse (EvacuateRunningActualLRP h pkg req w).response] ∧
      errorAssignments (EvacuateRunningActualLRP h pkg req w).trace = [(EvacuateRunningActualLRP h pkg req w).response.Error] ∧
      (keepAssignments (EvacuateRunningActualLRP h pkg req w).trace).getLast?.getD false
        = (EvacuateRunningActualLRP h pkg req w).response.KeepContainer ∧
      ∃ raw, (EvacuateRunningActualLRP h pkg req w).response.Error = pkg.ConvertError raw) ∧
    (written (EvacuateStoppedActualLRP h pkg req w).trace
        = [Message.EvacuationResponse (EvacuateStoppedActualLRP h pkg req w).response] ∧
      errorAssignments (EvacuateStoppedActualLRP h pkg req w).trace = [(EvacuateStoppedActualLRP h pkg req w).response.Error] ∧
      (keepAssignments (EvacuateStoppedActualLRP h pkg req w).trace).getLast?.getD false
        = (EvacuateStoppedActualLRP h pkg req w).response.KeepContainer ∧
      ∃ raw, (EvacuateStoppedActualLRP h pkg req w).response.Error = pkg.ConvertError raw) := by
  refine ⟨?_, ?_, ?_, ?_, ?_⟩
  · cases hp : pkg.parseRemoveEvacuatingActualLRPRequest req with
    | error e =>
      rw [RemoveEvacuatingActualLRP_invalid h pkg req w e hp]
      exact ⟨rfl, rfl, _, rfl⟩
    | ok request =>
      rcases hc : h.controller.RemoveEvacuatingActualLRP w.store
        request.ActualLrpKey request.ActualLrpInstanceKey with ⟨err, store⟩
      rw [RemoveEvacuatingActualLRP_valid h pkg req w request err store hp hc]
      exact ⟨rfl, rfl, _, rfl⟩
  · cases hp : pkg.parseEvacuateClaimedActualLRPRequest req with
    | error e =>
      rw [EvacuateClaimedActualLRP_invalid h pkg req w e hp]
      exact ⟨rfl, rfl, rfl, _, rfl⟩
    | ok request =>
      rcases hc : h.controller.EvacuateClaimedActualLRP w.store
        request.ActualLrpKey request.ActualLrpInstanceKey with ⟨⟨err, k⟩, store⟩
      rw [EvacuateClaimedActualLRP_valid h pkg req w request err k store hp hc]
      exact ⟨rfl, rfl, rfl, _, rfl⟩
  · cases hp : pkg.parseEvacuateCrashedActualLRPRequest req with
    | error e =>
      rw [EvacuateCrashedActualLRP_invalid h pkg req w e hp]
      exact ⟨rfl, rfl, rfl, _, rfl⟩
    | ok request =>
      rcases hc : h.controller.EvacuateCrashedActualLRP w.store
        request.ActualLrpKey request.ActualLrpInstanceKey request.ErrorMessage with ⟨err, store⟩
      rw [EvacuateCrashedActualLRP_valid h pkg req w request err store hp hc]
      exact ⟨rfl, rfl, rfl, _, rfl⟩
  · cases hp : pkg.parseEvacuateRunningActualLRPRequest req with
    | error e =>
      rw [EvacuateRunningActualLRP_invalid h pkg req w e hp]
      exact ⟨rfl, rfl, rfl, _, rfl⟩
    | ok request =>
      rcases hc : h.controller.EvacuateRunningActualLRP w.store
        request.ActualLrpKey request.ActualLrpInstanceKey request.ActualLrpNetInfo with ⟨⟨err, k⟩, store⟩
      rw [EvacuateRunningActualLRP_valid h pkg req w request err k store hp hc]
      exact ⟨rfl, rfl, rfl, _, rfl⟩
  · cases hp : pkg.parseEvacuateStoppedActualLRPRequest req with
    | error e =>
      rw [EvacuateStoppedActualLRP_invalid h pkg req w e hp]
      exact ⟨rfl, rfl, rfl, _, rfl⟩
    | ok request =>
      rcases hc : h.controller.EvacuateStoppedActualLRP w.store
        request.ActualLrpKey request.ActualLrpInstanceKey with ⟨err, store⟩
      rw [EvacuateStoppedActualLRP_valid h pkg req w request err store hp hc]
      exact ⟨rfl, rfl, rfl, _, rfl⟩

/-- C6: for every request and every controller outcome, EvacuateCrashedActualLRP
and EvacuateStoppedActualLRP never assign KeepContainer and respond with
`KeepContainer = false`; RemoveEvacuatingActualLRP transmits a
RemoveEvacuatingActualLRPResponse, a message without a KeepContainer field,
on which its only field write is the one assignment to Error. -/
theorem no_retention_value_without_decision (h : EvacuationHandler S K I N R)
    (pkg : Package Q K I N R) (req : Q) (w : World S) :
    (keepAssignments (EvacuateCrashedActualLRP h pkg req w).trace = [] ∧
      (EvacuateCrashedActualLRP h pkg req w).response.KeepContainer = false ∧
      (written (EvacuateCrashedActualLRP h pkg req w).trace).map Message.KeepContainer = [some false]) ∧
    (keepAssignments (EvacuateStoppedActualLRP h pkg req w).trace = [] ∧
      (EvacuateStoppedActualLRP h pkg req w).response.KeepContainer = false ∧
      (written (EvacuateStoppedActualLRP h pkg req w).trace).map Message.KeepContainer = [some false]) ∧
    (written (RemoveEvacuatingActualLRP h pkg req w).trace
        = [Message.RemoveEvacuatingActualLRPResponse (RemoveEvacuatingActualLRP h pkg req w).response] ∧
      (written (RemoveEvacuatingActualLRP h pkg req w).trace).map Message.KeepContainer = [none] ∧
      keepAssignments (RemoveEvacuatingActualLRP h pkg req w).trace = [] ∧
      (errorAssignments (RemoveEvacuatingActualLRP h pkg req w).trace).length = 1) := by
  refine ⟨?_, ?_, ?_⟩
  · cases hp : pkg.parseEvacuateCrashedActualLRPRequest req with
    | error e =>
      rw [EvacuateCrashedActualLRP_invalid h pkg req w e hp]
      exact ⟨rfl, rfl, rfl⟩
    | ok request =>
      rcases hc : h.controller.EvacuateCrashedActualLRP w.store
        request.ActualLrpKey request.ActualLrpInstanceKey request.ErrorMessage with ⟨err, store⟩
      rw [EvacuateCrashedActualLRP_valid h pkg req w request err store hp hc]
      exact ⟨rfl, rfl, rfl⟩
  · cases hp : pkg.parseEvacuateStoppedActualLRPRequest req with
    | error e =>
      rw [EvacuateStoppedActualLRP_invalid h pkg req w e hp]
      exact ⟨rfl, rfl, rfl⟩
    | ok request =>
      rcases hc : h.controller.EvacuateStoppedActualLRP w.store
        request.ActualLrpKey request.ActualLrpInstanceKey with ⟨err, store⟩
      rw [EvacuateStoppedActualLRP_valid h pkg req w request err store hp hc]
      exact ⟨rfl, rfl, rfl⟩
  · cases hp : pkg.parseRemoveEvacuatingActualLRPRequest req with
    | error e =>
      rw [RemoveEvacuatingActualLRP_invalid h pkg req w e hp]
      exact ⟨rfl, rfl, rfl, rfl⟩
    | ok request =>
      rcases hc : h.controller.RemoveEvacuatingActualLRP w.store
        request.ActualLrpKey request.ActualLrpInstanceKey with ⟨err, store⟩
      rw [RemoveEvacuatingActualLRP_valid h pkg req w request err store hp hc]
      exact ⟨rfl, rfl, rfl, rfl⟩

/-- C9: with a successfully parsed request each handler calls its own
controller operation exactly once, whatever that call returns, and no other
controller operation; the arguments are the decoded fields as they are:
ActualLrpKey and ActualLrpInstanceKey, plus ErrorMessage for Crashed and
ActualLrpNetInfo for Running.  The store left behind is the one that single
call returned. -/
theorem controller_called_once_with_decoded_fields (h : EvacuationHandler S K I N R)
    (pkg : Package Q K I N R) (req : Q) (w : World S) :
    (∀ request : models.RemoveEvacuatingActualLRPRequest K I,
      pkg.parseRemoveEvacuatingActualLRPRequest req = Except.ok request →
      controllerCalls (RemoveEvacuatingActualLRP h pkg req w).trace
        = [ControllerCall.RemoveEvacuatingActualLRP
            request.ActualLrpKey request.ActualLrpInstanceKey] ∧
      (RemoveEvacuatingActualLRP h pkg req w).store
        = (h.controller.RemoveEvacuatingActualLRP w.store
            request.ActualLrpKey request.ActualLrpInstanceKey).2) ∧
    (∀ request : models.EvacuateClaimedActualLRPRequest K I,
      pkg.parseEvacuateClaimedActualLRPRequest req = Except.ok request →
      controllerCalls (EvacuateClaimedActualLRP h pkg req w).trace
        = [ControllerCall.EvacuateClaimedActualLRP
            request.ActualLrpKey request.ActualLrpInstanceKey] ∧
      (EvacuateClaimedActualLRP h pkg req w).store
        = (h.controller.EvacuateClaimedActualLRP w.store
            request.ActualLrpKey request.ActualLrpInstanceKey).2) ∧
    (∀ request : models.EvacuateCrashedActualLRPRequest K I,
      pkg.parseEvacuateCrashedActualLRPRequest req = Except.ok request →
      controllerCalls (EvacuateCrashedActualLRP h pkg req w).trace
        = [ControllerCall.EvacuateCrashedActualLRP
            request.ActualLrpKey request.ActualLrpInstanceKey request.ErrorMessage] ∧
      (EvacuateCrashedActualLRP h pkg req w).store
        = (h.controller.EvacuateCrashedActualLRP w.store
            request.ActualLrpKey request.ActualLrpInstanceKey request.ErrorMessage).2) ∧
    (∀ request : models.EvacuateRunningActualLRPRequest K I N,
      pkg.parseEvacuateRunningActualLRPRequest req = Except.ok request →
      controllerCalls (EvacuateRunningActualLRP h pkg req w).trace
        = [ControllerCall.EvacuateRunningActualLRP
            request.ActualLrpKey request.ActualLrpInstanceKey request.ActualLrpNetInfo] ∧
      (EvacuateRunningActualLRP h pkg req w).store
        = (h.controller.EvacuateRunningActualLRP w.store
            request.ActualLrpKey request.ActualLrpInstanceKey request.ActualLrpNetInfo).2) ∧
    (∀ request : models.EvacuateStoppedActualLRPRequest K I,
      pkg.parseEvacuateStoppedActualLRPRequest req = Except.ok request →
      controllerCalls (EvacuateStoppedActualLRP h pkg req w).trace
        = [ControllerCall.EvacuateStoppedActualLRP
            request.ActualLrpKey request.ActualLrpInstanceKey] ∧
      (EvacuateStoppedActualLRP h pkg req w).store
        = (h.controller.EvacuateStoppedActualLRP w.store
            request.ActualLrpKey request.ActualLrpInstanceKey).2) := by
  refine ⟨?_, ?_, ?_, ?_, ?_⟩
  · intro request hp
    rcases hc : h.controller.RemoveEvacuatingActualLRP w.store
      request.ActualLrpKey request.ActualLrpInstanceKey with ⟨err, store⟩
    rw [RemoveEvacuatingActualLRP_valid h pkg req w request err store hp hc]
    exact ⟨rfl, rfl⟩
  · intro request hp
    rcases hc : h.controller.EvacuateClaimedActualLRP w.store
      request.ActualLrpKey request.ActualLrpInstanceKey with ⟨⟨err, k⟩, store⟩
    rw [EvacuateClaimedActualLRP_valid h pkg req w request err k store hp hc]
    exact ⟨rfl, rfl⟩
  · intro request hp
    rcases hc : h.controller.EvacuateCrashedActualLRP w.store
      request.ActualLrpKey request.ActualLrpInstanceKey request.ErrorMessage with ⟨err, store⟩
    rw [EvacuateCrashedActualLRP_valid h pkg req w request err store hp hc]
    exact ⟨rfl, rfl⟩
  · intro request hp
    rcases hc : h.controller.EvacuateRunningActualLRP w.store
      request.ActualLrpKey request.ActualLrpInstanceKey request.ActualLrpNetInfo with ⟨⟨err, k⟩, store⟩
    rw [EvacuateRunningActualLRP_valid h pkg req w request err k store hp hc]
    exact ⟨rfl, rfl⟩
  · intro request hp
    rcases hc : h.controller.EvacuateStoppedActualLRP w.store
      request.ActualLrpKey request.ActualLrpInstanceKey with ⟨err, store⟩
    rw [EvacuateStoppedActualLRP_valid h pkg req w request err store hp hc]
    exact ⟨rfl, rfl⟩

/-- C5 at the valid request `1` with the modelled monitor: against a
controller failing with an unrecoverable error every handler hands that error
to the monitor once and one signal is sent; against a controller failing with
not-found no signal is sent. -/
theorem escalation_runs_once_with_final_error_witness :
    (∀ c e, stubPackage.exitIfUnrecoverable c e = if isUnrecoverable e then c + 1 else c) ∧
    escalations (RemoveEvacuatingActualLRP (stubHandler (some stubUnrecoverable) true) stubPackage 1 stubWorld).trace
      = [some { Class := models.ErrorType.UnrecoverableError, Message := "store lost" }] ∧
    (RemoveEvacuatingActualLRP (stubHandler (some stubUnrecoverable) true) stubPackage 1 stubWorld).exitChan = 1 ∧
    (EvacuateClaimedActualLRP (stubHandler (some stubUnrecoverable) true) stubPackage 1 stubWorld).exitChan = 1 ∧
    (EvacuateCrashedActualLRP (stubHandler (some stubUnrecoverable) true) stubPackage 1 stubWorld).exitChan = 1 ∧
    (EvacuateRunningActualLRP (stubHandler (some stubUnrecoverable) true) stubPackage 1 stubWorld).exitChan = 1 ∧
    (EvacuateStoppedActualLRP (stubHandler (some stubUnrecoverable) true) stubPackage 1 stubWorld).exitChan = 1 ∧
    (EvacuateRunningActualLRP (stubHandler (some stubNotFound) true) stubPackage 1 stubWorld).exitChan = 0 :=
  have t := escalation_runs_once_with_final_error (stubHandler (some stubUnrecoverable) true) stubPackage 1 stubWorld
  have n := escalation_runs_once_with_final_error (stubHandler (some stubNotFound) true) stubPackage 1 stubWorld
  ⟨fun _ _ => rfl, t.1.1.trans rfl,
   (t.1.2.2 (fun _ _ => rfl)).trans rfl,
   (t.2.1.2.2 (fun _ _ => rfl)).trans rfl,
   (t.2.2.1.2.2 (fun _ _ => rfl)).trans rfl,
   (t.2.2.2.1.2.2 (fun _ _ => rfl)).trans rfl,
   (t.2.2.2.2.1.2.2 (fun _ _ => rfl)).trans rfl,
   (n.2.2.2.1.2.2 (fun _ _ => rfl)).trans rfl⟩

/-- C9 at the valid request `1`, which decodes to key 1, instance key 2, error
message "crashed" and net info 3, against a controller that fails: each
handler makes its one call with those fields, and the call counter is 1. -/
theorem controller_called_once_with_decoded_fields_witness :
    stubPackage.parseRemoveEvacuatingActualLRPRequest 1
      = Except.ok { ActualLrpKey := 1, ActualLrpInstanceKey := 2 } ∧
    stubPackage.parseEvacuateClaimedActualLRPRequest 1
      = Except.ok { ActualLrpKey := 1, ActualLrpInstanceKey := 2 } ∧
    stubPackage.parseEvacuateCrashedActualLRPRequest 1
      = Except.ok { ActualLrpKey := 1, ActualLrpInstanceKey := 2, ErrorMessage := "crashed" } ∧
    stubPackage.parseEvacuateRunningActualLRPRequest 1
      = Except.ok { ActualLrpKey := 1, ActualLrpInstanceKey := 2, ActualLrpNetInfo := 3 } ∧
    stubPackage.parseEvacuateStoppedActualLRPRequest 1
      = Except.ok { ActualLrpKey := 1, ActualLrpInstanceKey := 2 } ∧
    controllerCalls (RemoveEvacuatingActualLRP (stubHandler (some stubNotFound) true) stubPackage 1 stubWorld).trace
      = [ControllerCall.RemoveEvacuatingActualLRP 1 2] ∧
    controllerCalls (EvacuateClaimedActualLRP (stubHandler (some stubNotFound) true) stubPackage 1 stubWorld).trace
      = [ControllerCall.EvacuateClaimedActualLRP 1 2] ∧
    controllerCalls (EvacuateCrashedActualLRP (stubHandler (some stubNotFound) true) stubPackage 1 stubWorld).trace
      = [ControllerCall.EvacuateCrashedActualLRP 1 2 "crashed"] ∧
    controllerCalls (EvacuateRunningActualLRP (stubHandler (some stubNotFound) true) stubPackage 1 stubWorld).trace
      = [ControllerCall.EvacuateRunningActualLRP 1 2 3] ∧
    controllerCalls (EvacuateStoppedActualLRP (stubHandler (some stubNotFound) true) stubPackage 1 stubWorld).trace
      = [ControllerCall.EvacuateStoppedActualLRP 1 2] ∧
    (EvacuateRunningActualLRP (stubHandler (some stubNotFound) true) stubPackage 1 stubWorld).store = 1 :=
  have t := controller_called_once_with_decoded_fields (stubHandler (some stubNotFound) true) stubPackage 1 stubWorld
  ⟨rfl, rfl, rfl, rfl, rfl, (t.1 _ rfl).1, (t.2.1 _ rfl).1, (t.2.2.1 _ rfl).1, (t.2.2.2.1 _ rfl).1, (t.2.2.2.2 _ rfl).1,
   (t.2.2.2.1 _ rfl).2⟩

/-! ## Statelessness -/

/-- C10: the handlers keep no state of their own.  For each of the five, two
invocations, possibly on different handlers, stores, exit channels and
requests, whose parses return the same result and whose controller calls
return the same Go results, produce the same response.  In particular, with
the modelled `ConvertError` and monitor, the same valid
RemoveEvacuatingActualLRP request issued twice, the controller returning no
error the first time and a not-found error the second, yields the responses
`Error = nil` and `Error = ConvertError(not found)`, which is the not-found
error itself; the RemoveEvacuatingActualLRPResponse has no other field; the
error handed to the monitor is unrecoverable neither time, and no signal is
sent on the exit channel. -/
theorem responses_depend_only_on_parse_and_outcome :
    (∀ (pkg : Package Q K I N R) (h : EvacuationHandler S K I N R)
        (h2 : EvacuationHandler S K I N R) (req req2 : Q) (w w2 : World S),
      (pkg.parseRemoveEvacuatingActualLRPRequest req = pkg.parseRemoveEvacuatingActualLRPRequest req2 →
      (∀ request : models.RemoveEvacuatingActualLRPRequest K I,
        pkg.parseRemoveEvacuatingActualLRPRequest req = Except.ok request →
        (h.controller.RemoveEvacuatingActualLRP w.store
            request.ActualLrpKey request.ActualLrpInstanceKey).1
          = (h2.controller.RemoveEvacuatingActualLRP w2.store
            request.ActualLrpKey request.ActualLrpInstanceKey).1) →
      (RemoveEvacuatingActualLRP h pkg req w).response
        = (RemoveEvacuatingActualLRP h2 pkg req2 w2).response ∧
      written (RemoveEvacuatingActualLRP h pkg req w).trace
        = written (RemoveEvacuatingActualLRP h2 pkg req2 w2).trace) ∧
      (pkg.parseEvacuateClaimedActualLRPRequest req = pkg.parseEvacuateClaimedActualLRPRequest req2 →
      (∀ request : models.EvacuateClaimedActualLRPRequest K I,
        pkg.parseEvacuateClaimedActualLRPRequest req = Except.ok request →
        (h.controller.EvacuateClaimedActualLRP w.store
            request.ActualLrpKey request.ActualLrpInstanceKey).1
          = (h2.controller.EvacuateClaimedActualLRP w2.store
            request.ActualLrpKey request.ActualLrpInstanceKey).1) →
      (EvacuateClaimedActualLRP h pkg req w).response
        = (EvacuateClaimedActualLRP h2 pkg req2 w2).response ∧
      written (EvacuateClaimedActualLRP h pkg req w).trace
        = written (EvacuateClaimedActualLRP h2 pkg req2 w2).trace) ∧
      (pkg.parseEvacuateCrashedActualLRPRequest req = pkg.parseEvacuateCrashedActualLRPRequest req2 →
      (∀ request : models.EvacuateCrashedActualLRPRequest K I,
        pkg.parseEvacuateCrashedActualLRPRequest req = Except.ok request →
        (h.controller.EvacuateCrashedActualLRP w.store
            request.ActualLrpKey request.ActualLrpInstanceKey request.ErrorMessage).1
          = (h2.controller.EvacuateCrashedActualLRP w2.store
            request.ActualLrpKey request.ActualLrpInstanceKey request.ErrorMessage).1) →
      (EvacuateCrashedActualLRP h pkg req w).response
        = (EvacuateCrashedActualLRP h2 pkg req2 w2).response ∧
      written (EvacuateCrashedActualLRP h pkg req w).trace
        = written (EvacuateCrashedActualLRP h2 pkg req2 w2).trace) ∧
      (pkg.parseEvacuateRunningActualLRPRequest req = pkg.parseEvacuateRunningActualLRPRequest req2 →
      (∀ request : models.EvacuateRunningActualLRPRequest K I N,
        pkg.parseEvacuateRunningActualLRPRequest req = Except.ok request →
        (h.controller.EvacuateRunningActualLRP w.store
            request.ActualLrpKey request.ActualLrpInstanceKey request.ActualLrpNetInfo).1
          = (h2.controller.EvacuateRunningActualLRP w2.store
            request.ActualLrpKey request.ActualLrpInstanceKey request.ActualLrpNetInfo).1) →
      (EvacuateRunningActualLRP h pkg req w).response
        = (EvacuateRunningActualLRP h2 pkg req2 w2).response ∧
      written (EvacuateRunningActualLRP h pkg req w).trace
        = written (EvacuateRunningActualLRP h2 pkg req2 w2).trace) ∧
      (pkg.parseEvacuateStoppedActualLRPRequest req = pkg.parseEvacuateStoppedActualLRPRequest req2 →
      (∀ request : models.EvacuateStoppedActualLRPRequest K I,
        pkg.parseEvacuateStoppedActualLRPRequest req = Except.ok request →
        (h.controller.EvacuateStoppedActualLRP w.store
            request.ActualLrpKey request.ActualLrpInstanceKey).1
          = (h2.controller.EvacuateStoppedActualLRP w2.store
            request.ActualLrpKey request.ActualLrpInstanceKey).1) →
      (EvacuateStoppedActualLRP h pkg req w).response
        = (EvacuateStoppedActualLRP h2 pkg req2 w2).response ∧
      written (EvacuateStoppedActualLRP h pkg req w).trace
        = written (EvacuateStoppedActualLRP h2 pkg req2 w2).trace)) ∧
    (∀ (pkg : Package Q K I N models.RawError) (h : EvacuationHandler S K I N models.RawError)
        (req : Q) (w : World S) (request : models.RemoveEvacuatingActualLRPRequest K I)
        (notFound : models.Error) (store1 store2 : S),
      pkg.ConvertError = models.ConvertError →
      pkg.exitIfUnrecoverable = exitIfUnrecoverable →
      notFound.Class = models.ErrorType.NotFoundError →
      pkg.parseRemoveEvacuatingActualLRPRequest req = Except.ok request →
      h.controller.RemoveEvacuatingActualLRP w.store
        request.ActualLrpKey request.ActualLrpInstanceKey = (none, store1) →
      h.controller.RemoveEvacuatingActualLRP store1
        request.ActualLrpKey request.ActualLrpInstanceKey
          = (some (models.RawError.classified notFound), store2) →
      written (RemoveEvacuatingActualLRP h pkg req w).trace
        = [Message.RemoveEvacuatingActualLRPResponse { Error := none }] ∧
      written (RemoveEvacuatingActualLRP h pkg req
          (RemoveEvacuatingActualLRP h pkg req w).world).trace
        = [Message.RemoveEvacuatingActualLRPResponse { Error := some notFound }] ∧
      some notFound = models.ConvertError (some (models.RawError.classified notFound)) ∧
      escalations (RemoveEvacuatingActualLRP h pkg req w).trace = [none] ∧
      escalations (RemoveEvacuatingActualLRP h pkg req
          (RemoveEvacuatingActualLRP h pkg req w).world).trace = [some notFound] ∧
      isUnrecoverable none = false ∧
      isUnrecoverable (some notFound) = false ∧
      (RemoveEvacuatingActualLRP h pkg req w).exitChan = w.exitChan ∧
      (RemoveEvacuatingActualLRP h pkg req
          (RemoveEvacuatingActualLRP h pkg req w).world).exitChan = w.exitChan) := by
  refine ⟨fun pkg h h2 req req2 w w2 => ⟨?_, ?_, ?_, ?_, ?_⟩, ?_⟩
  · intro hq ho
    cases hp : pkg.parseRemoveEvacuatingActualLRPRequest req with
    | error e =>
      rw [RemoveEvacuatingActualLRP_invalid h pkg req w e hp,
        RemoveEvacuatingActualLRP_invalid h2 pkg req2 w2 e (hq ▸ hp)]
      exact ⟨rfl, rfl⟩
    | ok request =>
      rcases hc : h.controller.RemoveEvacuatingActualLRP w.store
        request.ActualLrpKey request.ActualLrpInstanceKey with ⟨err, store⟩
      rcases hc2 : h2.controller.RemoveEvacuatingActualLRP w2.store
        request.ActualLrpKey request.ActualLrpInstanceKey with ⟨err2, store2⟩
      rw [RemoveEvacuatingActualLRP_valid h pkg req w request err store hp hc,
        RemoveEvacuatingActualLRP_valid h2 pkg req2 w2 request err2 store2 (hq ▸ hp) hc2]
      have ho := ho request hp
      have hk : err = err2 := by
        simpa [hc, hc2] using ho
      rw [hk]
      exact ⟨rfl, rfl⟩
  · intro hq ho
    cases hp : pkg.parseEvacuateClaimedActualLRPRequest req with
    | error e =>
      rw [EvacuateClaimedActualLRP_invalid h pkg req w e hp,
        EvacuateClaimedActualLRP_invalid h2 pkg req2 w2 e (hq ▸ hp)]
      exact ⟨rfl, rfl⟩
    | ok request =>
      rcases hc : h.controller.EvacuateClaimedActualLRP w.store
        request.ActualLrpKey request.ActualLrpInstanceKey with ⟨⟨err, k⟩, store⟩
      rcases hc2 : h2.controller.EvacuateClaimedActualLRP w2.store
        request.ActualLrpKey request.ActualLrpInstanceKey with ⟨⟨err2, k2⟩, store2⟩
      rw [EvacuateClaimedActualLRP_valid h pkg req w request err k store hp hc,
        EvacuateClaimedActualLRP_valid h2 pkg req2 w2 request err2 k2 store2 (hq ▸ hp) hc2]
      have ho := ho request hp
      have hk : err = err2 ∧ k = k2 := by
        simpa [hc, hc2, Prod.ext_iff] using ho
      rw [hk.1, hk.2]
      exact ⟨rfl, rfl⟩
  · intro hq ho
    cases hp : pkg.parseEvacuateCrashedActualLRPRequest req with
    | error e =>
      rw [EvacuateCrashedActualLRP_invalid h pkg req w e hp,
        EvacuateCrashedActualLRP_invalid h2 pkg req2 w2 e (hq ▸ hp)]
      exact ⟨rfl, rfl⟩
    | ok request =>
      rcases hc : h.controller.EvacuateCrashedActualLRP w.store
        request.ActualLrpKey request.ActualLrpInstanceKey request.ErrorMessage with ⟨err, store⟩
      rcases hc2 : h2.controller.EvacuateCrashedActualLRP w2.store
        request.ActualLrpKey request.ActualLrpInstanceKey request.ErrorMessage with ⟨err2, store2⟩
      rw [EvacuateCrashedActualLRP_valid h pkg req w request err store hp hc,
        EvacuateCrashedActualLRP_valid h2 pkg req2 w2 request err2 store2 (hq ▸ hp) hc2]
      have ho := ho request hp
      have hk : err = err2 := by
        simpa [hc, hc2] using ho
      rw [hk]
      exact ⟨rfl, rfl⟩
  · intro hq ho
    cases hp : pkg.parseEvacuateRunningActualLRPRequest req with
    | error e =>
      rw [EvacuateRunningActualLRP_invalid h pkg req w e hp,
        EvacuateRunningActualLRP_invalid h2 pkg req2 w2 e (hq ▸ hp)]
      exact ⟨rfl, rfl⟩
    | ok request =>
      rcases hc : h.controller.EvacuateRunningActualLRP w.store
        request.ActualLrpKey request.ActualLrpInstanceKey request.ActualLrpNetInfo with ⟨⟨err, k⟩, store⟩
      rcases hc2 : h2.controller.EvacuateRunningActualLRP w2.store
        request.ActualLrpKey request.ActualLrpInstanceKey request.ActualLrpNetInfo with ⟨⟨err2, k2⟩, store2⟩
      rw [EvacuateRunningActualLRP_valid h pkg req w request err k store hp hc,
        EvacuateRunningActualLRP_valid h2 pkg req2 w2 request err2 k2 store2 (hq ▸ hp) hc2]
      have ho := ho request hp
      have hk : err = err2 ∧ k = k2 := by
        simpa [hc, hc2, Prod.ext_iff] using ho
      rw [hk.1, hk.2]
      exact ⟨rfl, rfl⟩
  · intro hq ho
    cases hp : pkg.parseEvacuateStoppedActualLRPRequest req with
    | error e =>
      rw [EvacuateStoppedActualLRP_invalid h pkg req w e hp,
        EvacuateStoppedActualLRP_invalid h2 pkg req2 w2 e (hq ▸ hp)]
      exact ⟨rfl, rfl⟩
    | ok request =>
      rcases hc : h.controller.EvacuateStoppedActualLRP w.store
        request.ActualLrpKey request.ActualLrpInstanceKey with ⟨err, store⟩
      rcases hc2 : h2.controller.EvacuateStoppedActualLRP w2.store
        request.ActualLrpKey request.ActualLrpInstanceKey with ⟨err2, store2⟩
      rw [EvacuateStoppedActualLRP_valid h pkg req w request err store hp hc,
        EvacuateStoppedActualLRP_valid h2 pkg req2 w2 request err2 store2 (hq ▸ hp) hc2]
      have ho := ho request hp
      have hk : err = err2 := by
        simpa [hc, hc2] using ho
      rw [hk]
      exact ⟨rfl, rfl⟩
  · intro pkg h req w request notFound store1 store2 hce hmon hnf hp hc1 hc2
    have hu : isUnrecoverable (some notFound) = false := by
      simp [isUnrecoverable, hnf]
    have e1 := RemoveEvacuatingActualLRP_valid h pkg req w request none store1 hp hc1
    have e2 := RemoveEvacuatingActualLRP_valid h pkg req
      (RemoveEvacuatingActualLRP h pkg req w).world request
      (some (models.RawError.classified notFound)) store2 hp (by rw [e1]; exact hc2)
    rw [e2, e1, hce, hmon]
    refine ⟨rfl, rfl, rfl, rfl, rfl, rfl, hu, rfl, ?_⟩
    show exitIfUnrecoverable (exitIfUnrecoverable w.exitChan none) (some notFound) = w.exitChan
    have hn : isUnrecoverable none = false := rfl
    simp [exitIfUnrecoverable, hu, hn]

/-- C10 at the valid request `1`, issued twice against the stub controller
whose second call reports not-found: the first response has no error, the
second the not-found error, and the exit channel stays empty; and a Running
request against a controller with 7 earlier calls and 3 earlier signals gets
the same response as against a fresh one. -/
theorem responses_depend_only_on_parse_and_outcome_witness :
    stubPackage.parseRemoveEvacuatingActualLRPRequest 1
      = Except.ok { ActualLrpKey := 1, ActualLrpInstanceKey := 2 } ∧
    stubSecondCallHandler.controller.RemoveEvacuatingActualLRP 0 1 2 = (none, 1) ∧
    stubSecondCallHandler.controller.RemoveEvacuatingActualLRP 1 1 2 = (some stubNotFound, 2) ∧
    written (RemoveEvacuatingActualLRP stubSecondCallHandler stubPackage 1 stubWorld).trace = [Message.RemoveEvacuatingActualLRPResponse { Error := none }] ∧
    written (RemoveEvacuatingActualLRP stubSecondCallHandler stubPackage 1 (RemoveEvacuatingActualLRP stubSecondCallHandler stubPackage 1 stubWorld).world).trace
      = [Message.RemoveEvacuatingActualLRPResponse
          { Error := some { Class := models.ErrorType.NotFoundError, Message := "not found" } }] ∧
    (RemoveEvacuatingActualLRP stubSecondCallHandler stubPackage 1 (RemoveEvacuatingActualLRP stubSecondCallHandler stubPackage 1 stubWorld).world).exitChan = 0 ∧
    written (EvacuateRunningActualLRP (stubHandler none true) stubPackage 1 stubWorld).trace
      = written (EvacuateRunningActualLRP (stubHandler none true) stubPackage 1
          { store := 7, exitChan := 3 }).trace :=
  have t := (@responses_depend_only_on_parse_and_outcome Nat Nat Nat Nat Nat models.RawError).2
    stubPackage stubSecondCallHandler 1 stubWorld { ActualLrpKey := 1, ActualLrpInstanceKey := 2 }
    { Class := models.ErrorType.NotFoundError, Message := "not found" } 1 2
    rfl rfl rfl rfl rfl rfl
  have u := ((@responses_depend_only_on_parse_and_outcome Nat Nat Nat Nat Nat models.RawError).1
    stubPackage (stubHandler none true) (stubHandler none true) 1 1 stubWorld
    { store := 7, exitChan := 3 }).2.2.2.1 rfl (fun _ _ => rfl)
  ⟨rfl, rfl, rfl, t.1, t.2.1, t.2.2.2.2.2.2.2.2, u.2⟩

end claims

end handlers
